import Mathlib

/-!
# Verification of the keystone token provider (`keystone/token/provider.py`)

A shallow embedding of the token provider manager: the URL-safe base64 id
utilities, the validation / issuance / revocation flows of `Manager`, and the
event-driven bulk-invalidation callbacks.  Machine-level effects (the dogpile
cache region, the persistence store, the revocation registry) are modelled as
explicit state threaded through a state-and-error monad `M`; collaborators
whose code is not part of the repository snapshot (driver, persistence
backend, revocation API) are modelled from the specification and marked as
such in their doc comments.
-/

namespace Keystone

/-! ## URL-safe base64 (`random_urlsafe_str` / `random_urlsafe_str_to_bytes`)

`provider.py` lines 59-92.  Bytes are modelled as natural numbers below 256.
-/

/-- The URL-safe base64 alphabet used by `base64.urlsafe_b64encode`
(RFC 4648 §5: `A`-`Z`, `a`-`z`, `0`-`9`, `-`, `_`). -/
def b64alphabet : List Char :=
  ['A', 'B', 'C', 'D', 'E', 'F', 'G', 'H', 'I', 'J', 'K', 'L', 'M',
   'N', 'O', 'P', 'Q', 'R', 'S', 'T', 'U', 'V', 'W', 'X', 'Y', 'Z',
   'a', 'b', 'c', 'd', 'e', 'f', 'g', 'h', 'i', 'j', 'k', 'l', 'm',
   'n', 'o', 'p', 'q', 'r', 's', 't', 'u', 'v', 'w', 'x', 'y', 'z',
   '0', '1', '2', '3', '4', '5', '6', '7', '8', '9', '-', '_']

/-- Character for a 6-bit group. -/
def b64char (n : Nat) : Char := b64alphabet.getD n 'A'

/-- Partial inverse of `b64char`: position of a character in the alphabet. -/
def b64val (c : Char) : Option Nat := b64alphabet.findIdx? (fun x => x == c)

/-- RFC 4648 encoding of a byte list, three bytes to four characters, with
`=` padding on a trailing group of one or two bytes.  This is the behaviour
of `base64.urlsafe_b64encode` on the byte level. -/
def encodeChunks : List Nat → List Char
  | a :: b :: c :: rest =>
    b64char (a / 4) :: b64char (a % 4 * 16 + b / 16) ::
      b64char (b % 16 * 4 + c / 64) :: b64char (c % 64) :: encodeChunks rest
  | [a, b] => [b64char (a / 4), b64char (a % 4 * 16 + b / 16), b64char (b % 16 * 4), '=']
  | [a] => [b64char (a / 4), b64char (a % 4 * 16), '=', '=']
  | [] => []

/-- RFC 4648 decoding of a properly padded character list, four characters to
three bytes, `=`-padding yielding a short final group.  This is the behaviour
of `base64.urlsafe_b64decode` on canonical input (which is all
`random_urlsafe_str_to_bytes` feeds it). -/
def decodeChunks : List Char → Option (List Nat)
  | c1 :: c2 :: c3 :: c4 :: rest =>
    match b64val c1, b64val c2 with
    | some v1, some v2 =>
      if c3 = '=' then
        if c4 = '=' ∧ rest = [] then some [v1 * 4 + v2 / 16] else none
      else
        match b64val c3 with
        | some v3 =>
          if c4 = '=' then
            if rest = [] then some [v1 * 4 + v2 / 16, v2 % 16 * 16 + v3 / 4] else none
          else
            match b64val c4 with
            | some v4 =>
              match decodeChunks rest with
              | some bs =>
                some ((v1 * 4 + v2 / 16) :: (v2 % 16 * 16 + v3 / 4) :: (v3 % 4 * 64 + v4) :: bs)
              | none => none
            | none => none
        | none => none
    | _, _ => none
  | [] => some []
  | _ => none

/-- `random_urlsafe_str` (lines 71-78) applied to a given 16-byte value: the
base64 encoding of `uuid.uuid4().bytes` with the final two characters (the
`==` padding) chopped off; the random bytes are the explicit argument here. -/
def random_urlsafe_str_of (bytes : List Nat) : List Char :=
  (encodeChunks bytes).take ((encodeChunks bytes).length - 2)

/-- `random_urlsafe_str_to_bytes` (lines 81-92): restore the `==` padding and
base64-decode. -/
def random_urlsafe_str_to_bytes (s : List Char) : Option (List Nat) :=
  decodeChunks (s ++ ['=', '='])

/-! ## Data model

Exceptions, token payloads and persisted records, translated from the
structures `provider.py` manipulates.  Python dict lookups are modelled with
`Option` fields; a timestamp field distinguishes absent, unparseable and
well-formed values (`timeutils.parse_isotime` failures). -/

/-- The exception classes that can flow through the manager.
`tokenNotFound` is `exception.TokenNotFound` (a `NotFound`), `unauthorized`
is `exception.Unauthorized` (and its subclasses), `unsupportedTokenVersion`
is `exception.UnsupportedTokenVersionException` (not an `Unauthorized`),
`conflict` is a backend duplicate/`Conflict` error, `keyError` a raw Python
`KeyError`/`TypeError` from a missing dict key. -/
inductive Err
  | tokenNotFound
  | unauthorized
  | unsupportedTokenVersion
  | conflict
  | keyError
deriving DecidableEq, Repr

/-- A timestamp-valued dict entry: absent (`.get` returns `None`),
present but unparseable by `parse_isotime`, or a parsed UTC time
(modelled as an integer number of seconds). -/
inductive Field
  | missing
  | malformed
  | time (t : Int)
deriving DecidableEq, Repr

/-- The nested `['token']` sub-dict of a legacy `access` section:
`expires` and the optional `tenant` id. -/
structure Nested where
  expires : Field
  tenant : Option String
deriving DecidableEq, Repr

/-- A top-level payload section (the value under `'token'` or `'access'`):
the fields `_is_valid_token` probes for expiry, plus the nested legacy
sub-dict. -/
structure Sec where
  expires_at : Field
  expires : Field
  nested : Option Nested
deriving DecidableEq, Repr

/-- A delegated-trust reference. -/
structure TrustRef where
  trust_id : String
  trustor_user_id : String
  trustee_user_id : String
deriving DecidableEq, Repr

/-- A token payload (`token_data`): the dict shape (which of the `'token'` /
`'access'` sections is present) plus the attributes the revocation model,
the version adapter and `KeystoneToken` read from it. -/
structure Payload where
  token : Option Sec
  access : Option Sec
  user_id : String
  project : Option String
  domain : Option String
  roles : List String
  is_domain : Bool
  audit_ids : List String
  trust : Option TrustRef
  oauth : Bool
deriving DecidableEq, Repr

/-- The `metadata` dict of a persisted record (role ids plus the trust keys
`setdefault`-ed by `issue_v3_token`). -/
structure MetaD where
  roles : List String
  trust_id : Option String
  trustee_user_id : Option String
deriving DecidableEq, Repr

/-- A persisted token record, as built by the issue paths (lines 372-381 and
422-431): storage key/id, expiry, user, tenant, metadata, full payload,
trust/consumer references and the `token_version` tag.  The `domain` and
`consumer_id` attributes are the ones the spec's `TokenStore.delete_for`
selects on. -/
structure Record where
  id : String
  expires : Field
  user : String
  tenant : Option String
  domain : Option String
  is_domain : Bool
  metadata : MetaD
  token_data : Payload
  trust_id : Option String
  consumer_id : Option String
  token_version : String
deriving DecidableEq, Repr

/-- Version tag of legacy tokens (`token_model.V2`). -/
def V2 : String := "v2.0"

/-- Version tag of current tokens (`token_model.V3`). -/
def V3 : String := "v3.0"

/-- The four `@MEMOIZE_TOKENS`-decorated functions sharing `TOKENS_REGION`. -/
inductive Fn
  | vt
  | v2t
  | v3t
  | np
deriving DecidableEq, Repr

/-- A memoization-key argument: dogpile builds the key from the call
argument as given, which is a token-id string on some paths and a full
persisted record (`token_ref`) on others. -/
inductive Arg
  | str (s : String)
  | ref (r : Record)
deriving DecidableEq, Repr

/-- A key of the `tokens` cache region: function tag plus argument. -/
abbrev CacheKey := Fn × Arg

/-- The mutable world: persisted token store, the `TOKENS_REGION` cache,
the revocation registry (as the list of revoked audit ids), plus two
instrumentation traces — how many times the revocation registry was
consulted and which memoization keys were looked up. -/
structure St where
  store : List (String × Record)
  cache : List (CacheKey × Payload)
  revoked : List String
  revCount : Nat
  memoKeys : List CacheKey
deriving DecidableEq, Repr

/-! ## The effect monad

Python exceptions do not roll back state, so a computation maps a state to a
result *and* a final state. -/

/-- State-and-error monad over `St` with `Err` exceptions. -/
def M (α : Type) : Type := St → Except Err α × St

/-- Return. -/
def M.pure (a : α) : M α := fun s => (Except.ok a, s)

/-- Sequencing: on an exception the continuation is skipped but the state
mutations so far are kept. -/
def M.bind (m : M α) (f : α → M β) : M β := fun s =>
  match m s with
  | (Except.ok a, s1) => f a s1
  | (Except.error e, s1) => (Except.error e, s1)

instance : Monad M where
  pure := M.pure
  bind := M.bind

/-- `raise e`. -/
def M.throw (e : Err) : M α := fun s => (Except.error e, s)

/-- Run a pure `Except` computation. -/
def M.liftE : Except Err α → M α
  | Except.ok a => M.pure a
  | Except.error e => M.throw e

/-- `try: ... except exception.Unauthorized: handler` — only the
`Unauthorized` class is caught; every other exception propagates. -/
def M.catchUnauthorized (m : M α) (h : M α) : M α := fun s =>
  match m s with
  | (Except.ok a, s1) => (Except.ok a, s1)
  | (Except.error e, s1) => if e = Err.unauthorized then h s1 else (Except.error e, s1)

/-! ## Collaborators

The token driver, the persistence backend, the revocation API and the id
normalizer are separate keystone modules not present in this snapshot; they
are modelled from the spec's collaborator contracts (§4, §6). -/

/-- Modelled from the spec: `keystone.token.utils.generate_unique_id` is not
under `src/`.  Per the spec, validation first normalizes the presented id
"to its unique (non-self-describing) key form": a long self-describing
(PKI-style) id is replaced by a bounded digest, a short id passes through
unchanged.  The digest itself is abstracted as a tagged truncation. -/
def generate_unique_id (token_id : String) : String :=
  if token_id.length ≤ 64 then token_id else "digest-" ++ token_id.take 57

/-- The pluggable token provider backend (`self.driver`), modelled from the
spec's `TokenCodec` contract: persistence flag, version-specific validators
and current-version issuance.  The validators are pure functions supplied by
the environment. -/
structure Driver where
  needs_persistence : Bool
  validate_np : String → Except Err Payload
  validate_v2 : Record → Except Err Payload
  validate_v3 : Record → Except Err Payload
  issue_v3 : String → Except Err (String × Payload)

/-- `CONF.token` switches used by the manager. -/
structure Config where
  cache_on_issue : Bool
  revoke_by_id : Bool
deriving DecidableEq, Repr

/-- The manager's static environment: configuration, driver, and the two
read-only collaborators used by bulk invalidation
(`trust_api.get_trust(..., deleted=True)` and
`assignment_api.list_user_ids_for_project`). -/
structure Env where
  cfg : Config
  driver : Driver
  trusts : String → TrustRef
  projectUsers : String → List String

/-- Association lookup in the persisted store. -/
def lookupStore : List (String × Record) → String → Option Record
  | [], _ => none
  | (k, r) :: rest, id => if id = k then some r else lookupStore rest id

/-- Modelled from the spec: `TokenStore.get(id) -> record | NotFound`
(`self._persistence.get_token`). -/
def storeGet (token_id : String) : M Record := fun s =>
  match lookupStore s.store token_id with
  | some r => (Except.ok r, s)
  | none => (Except.error Err.tokenNotFound, s)

/-- Modelled from the spec: `TokenStore.put` (`_persistence.create_token`),
reporting a conflict when the id already exists. -/
def storeCreate (token_id : String) (r : Record) : M Unit := fun s =>
  match lookupStore s.store token_id with
  | some _ => (Except.error Err.conflict, s)
  | none => (Except.ok (), { s with store := (token_id, r) :: s.store })

/-- Modelled from the spec: `TokenStore.delete(id)`
(`_persistence.delete_token`). -/
def storeDelete (token_id : String) : M Unit := fun s =>
  (Except.ok (), { s with store := s.store.filter (fun kv => kv.1 ≠ token_id) })

/-- Selection criteria of the spec's
`TokenStore.delete_for(user_id?, domain_id?, project_id?, trust_id?, consumer_id?)`. -/
structure DelCriteria where
  user_id : Option String
  domain_id : Option String
  project_id : Option String
  trust_id : Option String
  consumer_id : Option String
deriving DecidableEq, Repr

/-- A record matches deletion criteria when every supplied criterion agrees
with the record's attribute. -/
def Record.matchesDel (r : Record) (c : DelCriteria) : Bool :=
  c.user_id.all (fun u => r.user = u) &&
  c.domain_id.all (fun d => r.domain = some d) &&
  c.project_id.all (fun p => r.tenant = some p) &&
  c.trust_id.all (fun t => r.trust_id = some t) &&
  c.consumer_id.all (fun cid => r.consumer_id = some cid)

/-- Apply a sequence of `delete_for` calls to a store. -/
def applyDels (store : List (String × Record)) (cs : List DelCriteria) :
    List (String × Record) :=
  cs.foldl (fun st c => st.filter (fun kv => !(kv.2.matchesDel c))) store

/-- Modelled from the spec: one `TokenStore.delete_for` call
(`delete_tokens`, `delete_tokens_for_user`, `delete_tokens_for_domain`). -/
def storeDeleteFor (c : DelCriteria) : M Unit := fun s =>
  (Except.ok (), { s with store := s.store.filter (fun kv => !(kv.2.matchesDel c)) })

/-- Modelled from the spec: `delete_tokens_for_users` — a `delete_for` per
listed user. -/
def storeDeleteForMany (cs : List DelCriteria) : M Unit := fun s =>
  (Except.ok (), { s with store := applyDels s.store cs })

/-- `TOKENS_REGION.invalidate()`: the whole validation cache region is
dropped. -/
def regionInvalidate : M Unit := fun s =>
  (Except.ok (), { s with cache := [] })

/-- Lookup in the cache region. -/
def cacheGet : List (CacheKey × Payload) → CacheKey → Option Payload
  | [], _ => none
  | (k, v) :: rest, key => if key = k then some v else cacheGet rest key

/-- `memoized_fn.set(value, TOKENS_REGION, key)`: proactively seed the cache
entry a later memoized call with the same argument would hit. -/
def cacheSet (fn : Fn) (arg : Arg) (v : Payload) : M Unit := fun s =>
  (Except.ok (), { s with cache := ((fn, arg), v) :: s.cache })

/-- Modelled from the spec: the `@MEMOIZE_TOKENS` decorator — a dogpile
memoization of the wrapped call, keyed by the function and its argument as
given.  A hit returns the cached payload without running the body; a miss
runs the body and caches a successful result (exceptions are not cached).
Every lookup is recorded in the `memoKeys` trace. -/
def memoized (fn : Fn) (arg : Arg) (compute : M Payload) : M Payload := fun s =>
  let s1 := { s with memoKeys := s.memoKeys ++ [(fn, arg)] }
  match cacheGet s.cache (fn, arg) with
  | some v => (Except.ok v, s1)
  | none =>
    match compute s1 with
    | (Except.ok v, s2) => (Except.ok v, { s2 with cache := ((fn, arg), v) :: s2.cache })
    | (Except.error e, s2) => (Except.error e, s2)

/-- Modelled from the spec: `get_token_version` applied to a persisted
record, whose `token_version` tag is checked against the two supported
versions; an unrecognizable record raises
`UnsupportedTokenVersionException`. -/
def get_token_version_rec (r : Record) : Except Err String :=
  if r.token_version = V2 then Except.ok V2
  else if r.token_version = V3 then Except.ok V3
  else Except.error Err.unsupportedTokenVersion

/-- Modelled from the spec: `get_token_version` applied to raw token data,
classified by which section the dict carries; a payload with neither shape
raises `UnsupportedTokenVersionException`. -/
def get_token_version_payload (p : Payload) : Except Err String :=
  if p.access.isSome then Except.ok V2
  else if p.token.isSome then Except.ok V3
  else Except.error Err.unsupportedTokenVersion

/-- The attributes a revocation query carries (subject and audit chain). -/
structure RevQuery where
  user_id : String
  audit_ids : List String
deriving DecidableEq, Repr

/-- Modelled from the spec: `revoke_api.model.build_token_values` /
`build_token_values_v2` — project the payload onto the revocation query. -/
def build_token_values (p : Payload) : RevQuery :=
  { user_id := p.user_id, audit_ids := p.audit_ids }

/-- Modelled from the spec: `revoke_api.check_token` — consult the
revocation registry (counted in the `revCount` trace) and raise
`TokenNotFound` when any audit id of the token has been revoked. -/
def check_token (q : RevQuery) : M Unit := fun s =>
  let s1 := { s with revCount := s.revCount + 1 }
  if q.audit_ids.any (fun a => s.revoked.contains a) then (Except.error Err.tokenNotFound, s1)
  else (Except.ok (), s1)

/-- `check_revocation_v2` (lines 219-227): the payload must carry an
`access` section, then the registry is consulted. -/
def check_revocation_v2 (token : Payload) : M Unit :=
  match token.access with
  | none => M.throw Err.tokenNotFound
  | some _ => check_token (build_token_values token)

/-- `check_revocation_v3` (lines 257-263): the payload must carry a `token`
section, then the registry is consulted. -/
def check_revocation_v3 (token : Payload) : M Unit :=
  match token.token with
  | none => M.throw Err.tokenNotFound
  | some _ => check_token (build_token_values token)

/-- `check_revocation` (lines 265-270): dispatch on the payload's version. -/
def check_revocation (token : Payload) : M Unit := do
  let version ← M.liftE (get_token_version_payload token)
  if version = V2 then check_revocation_v2 token
  else check_revocation_v3 token

/-- The expiry-extraction of `_is_valid_token` (lines 332-345):
`token.get('token', token.get('access'))`, then
`.get('expires_at', .get('expires'))`, falling back to
`['token']['expires']` when falsy, then `parse_isotime`.  `none` means some
exception was raised inside the `try` block. -/
def extract_expiry (token : Payload) : Option Int :=
  match (match token.token with | some sec => some sec | none => token.access) with
  | none => none
  | some sec =>
    match (match sec.expires_at with | Field.missing => sec.expires | f => f) with
    | Field.time t => some t
    | Field.malformed => none
    | Field.missing =>
      match sec.nested with
      | none => none
      | some n =>
        match n.expires with
        | Field.time t => some t
        | _ => none

/-- `_is_valid_token` (lines 328-352): any failure extracting the expiry is
a `TokenNotFound`; a non-expired token is checked against the revocation
registry; an expired one is a `TokenNotFound`.  `now` is
`timeutils.utcnow()`. -/
def _is_valid_token (now : Int) (token : Payload) : M Unit :=
  match extract_expiry token with
  | none => M.throw Err.tokenNotFound
  | some expiry =>
    if now < expiry then check_revocation token
    else M.throw Err.tokenNotFound

/-- `_token_belongs_to` (lines 354-365): when a non-empty `belongs_to` is
supplied, the legacy payload's `access.token.tenant.id` must match it;
mismatch or missing tenant is an `Unauthorized`. -/
def _token_belongs_to (token : Payload) (belongs_to : Option String) : Except Err Unit :=
  match belongs_to with
  | none => Except.ok ()
  | some b =>
    if b = "" then Except.ok ()
    else
      match token.access with
      | none => Except.error Err.keyError
      | some sec =>
        match sec.nested with
        | none => Except.error Err.keyError
        | some n =>
          if n.tenant = some b then Except.ok () else Except.error Err.unauthorized

/-- `validate_non_persistent_token` (lines 295-297): memoized driver
validation, keyed by the token id exactly as presented. -/
def validate_non_persistent_token (env : Env) (token_id : String) : M Payload :=
  memoized Fn.np (Arg.str token_id) (M.liftE (env.driver.validate_np token_id))

/-- `_validate_v2_token` (lines 320-322): memoized driver validation, keyed
by the argument as given (a full `token_ref` record on the
`validate_v2_token` path). -/
def _validate_v2_token (env : Env) (token_ref : Record) : M Payload :=
  memoized Fn.v2t (Arg.ref token_ref) (M.liftE (env.driver.validate_v2 token_ref))

/-- `_validate_v3_token` (lines 324-326): memoized driver validation, keyed
by the argument as given. -/
def _validate_v3_token (env : Env) (token_ref : Record) : M Payload :=
  memoized Fn.v3t (Arg.ref token_ref) (M.liftE (env.driver.validate_v3 token_ref))

/-- The `try` block of `_validate_token` (lines 304-315): resolve the token
(self-describing or persisted + version dispatch).  `Sum.inl` is an early
`return`; `Sum.inr` carries `(token_ref, version)` out of the block for the
code after the `try`. -/
def _validate_token_resolve (env : Env) (token_id : String) :
    M (Sum Payload (Record × String)) := do
  if !env.driver.needs_persistence then
    let p ← M.liftE (env.driver.validate_np token_id)
    M.pure (Sum.inl p)
  else
    let token_ref ← storeGet token_id
    let version ← M.liftE (get_token_version_rec token_ref)
    if version = V3 then
      let p ← M.liftE (env.driver.validate_v3 token_ref)
      M.pure (Sum.inl p)
    else M.pure (Sum.inr (token_ref, version))

/-- Body of `_validate_token` (lines 299-318): empty ids are not found;
`Unauthorized` from resolution becomes `TokenNotFound`; a legacy record is
validated by the v2 driver *outside* the `try`; any other version raises
`UnsupportedTokenVersionException`. -/
def _validate_token_body (env : Env) (token_id : String) : M Payload :=
  if token_id = "" then M.throw Err.tokenNotFound
  else do
    let r ← M.catchUnauthorized (_validate_token_resolve env token_id)
      (M.throw Err.tokenNotFound)
    match r with
    | Sum.inl token => M.pure token
    | Sum.inr rv =>
      if rv.2 = V2 then M.liftE (env.driver.validate_v2 rv.1)
      else M.throw Err.unsupportedTokenVersion

/-- `_validate_token` (lines 299-318) with its `@MEMOIZE_TOKENS` decorator,
keyed by the id it is called with. -/
def _validate_token (env : Env) (token_id : String) : M Payload :=
  memoized Fn.vt (Arg.str token_id) (_validate_token_body env token_id)

/-- `validate_token` (lines 210-217): normalize the id, resolve via the
memoized `_validate_token`, then the `belongs_to` scope check, then
expiry + revocation. -/
def validate_token (env : Env) (now : Int) (token_id : String)
    (belongs_to : Option String) : M Payload := do
  let token ← _validate_token env (generate_unique_id token_id)
  M.liftE (_token_belongs_to token belongs_to)
  _is_valid_token now token
  M.pure token

/-- Modelled from the spec: the Version Adapter
(`providers.common.V2TokenDataHelper.v3_to_v2_token`) is not under `src/`.
Per the spec (§4.4) it is a pure function from a current-shaped payload and
its id to a legacy-shaped payload, rejecting with an authorization failure
any token with no legacy representation (delegated-trust or OAuth tokens). -/
def v3_to_v2_token (p : Payload) (token_id : String) : Except Err Payload :=
  if p.trust.isSome || p.oauth then Except.error Err.unauthorized
  else
    match p.token with
    | none => Except.error Err.keyError
    | some sec =>
      Except.ok { token := none,
                  access := some { expires_at := Field.missing, expires := Field.missing,
                                   nested := some { expires := sec.expires_at,
                                                    tenant := p.project } },
                  user_id := p.user_id, project := p.project, domain := p.domain,
                  roles := p.roles, is_domain := p.is_domain,
                  audit_ids := p.audit_ids, trust := p.trust, oauth := p.oauth }

/-- `validate_v2_token` (lines 229-255): with a persisting driver, fetch the
record by the normalized id and run the memoized `_validate_v2_token` *on
the record*; otherwise validate the self-describing token and convert the
current view to the legacy view; in both cases the `belongs_to` check runs
before the expiry + revocation check. -/
def validate_v2_token (env : Env) (now : Int) (token_id : String)
    (belongs_to : Option String) : M Payload := do
  let token ←
    if env.driver.needs_persistence then do
      let token_ref ← storeGet (generate_unique_id token_id)
      _validate_v2_token env token_ref
    else do
      let v3_token_ref ← validate_non_persistent_token env token_id
      M.liftE (v3_to_v2_token v3_token_ref token_id)
  M.liftE (_token_belongs_to token belongs_to)
  _is_valid_token now token
  M.pure token

/-- `validate_v3_token` (lines 272-293): empty ids are not found; resolution
and the expiry + revocation check run inside a `try` whose `Unauthorized`
handler raises `TokenNotFound`. -/
def validate_v3_token (env : Env) (now : Int) (token_id : String) : M Payload :=
  if token_id = "" then M.throw Err.tokenNotFound
  else
    M.catchUnauthorized
      (do
        let token_ref ←
          if !env.driver.needs_persistence then validate_non_persistent_token env token_id
          else do
            let r ← storeGet (generate_unique_id token_id)
            _validate_v3_token env r
        _is_valid_token now token_ref
        M.pure token_ref)
      (M.throw Err.tokenNotFound)

/-- `_create_token` (lines 195-208): try the store create (the collaborator
call is passed in as `create_op`, with the `expires`-normalization folded
into it); on *any* exception re-fetch by the same id (`get_op`) — if the
record is there the pre-existing token is treated as equivalent and the
caller is not failed; only a `TokenNotFound` from the re-fetch re-raises the
original create failure. -/
def _create_token (create_op : M Unit) (get_op : M Record) : M Unit := fun s =>
  match create_op s with
  | (Except.ok _, s1) => (Except.ok (), s1)
  | (Except.error e, s1) =>
    match get_op s1 with
    | (Except.ok _, s2) => (Except.ok (), s2)
    | (Except.error e2, s2) =>
      if e2 = Err.tokenNotFound then (Except.error e, s2)
      else (Except.error e2, s2)

/-- Inputs of `issue_v3_token` that the manager (not the driver) consumes:
the optional caller-supplied metadata, the trust reference and the `is_domain`
flag. -/
structure IssueIn where
  request : String
  is_domain : Bool
  trust : Option TrustRef
  metadata_ref : Option MetaD
deriving Repr

/-- `issue_v3_token` (lines 396-455): driver issuance, metadata/record
assembly, optional persistence via `_create_token`, and — when
`cache_on_issue` is on — seeding of the v3/version-agnostic/non-persistent
caches keyed by the minted id, plus an *attempt* to synthesize and seed the
legacy view whose `Unauthorized` failure is swallowed. -/
def issue_v3_token (env : Env) (inp : IssueIn) : M (String × Payload) := do
  let pair ← M.liftE (env.driver.issue_v3 inp.request)
  let token_id := pair.1
  let token_data := pair.2
  match token_data.token with
  | none => M.throw Err.keyError
  | some sec => do
    let metadata_ref0 := inp.metadata_ref.getD { roles := [], trust_id := none,
                                                 trustee_user_id := none }
    let m1 := if token_data.project.isSome then
        ({ roles := token_data.roles, trust_id := none, trustee_user_id := none } : MetaD)
      else metadata_ref0
    let is_domain := if token_data.project.isSome then token_data.is_domain else inp.is_domain
    let m2 := match inp.trust with
      | none => m1
      | some t =>
        { roles := m1.roles,
          trust_id := match m1.trust_id with | none => some t.trust_id | s => s,
          trustee_user_id := match m1.trustee_user_id with
            | none => some t.trustee_user_id | s => s }
    let data : Record :=
      { id := token_id, expires := sec.expires_at, user := token_data.user_id,
        tenant := token_data.project, domain := token_data.domain, is_domain := is_domain,
        metadata := m2, token_data := token_data,
        trust_id := (match inp.trust with | some t => some t.trust_id | none => none),
        consumer_id := none, token_version := V3 }
    if env.driver.needs_persistence then
      _create_token (storeCreate token_id data) (storeGet token_id)
    if env.cfg.cache_on_issue then do
      cacheSet Fn.v3t (Arg.str token_id) token_data
      cacheSet Fn.vt (Arg.str token_id) token_data
      cacheSet Fn.np (Arg.str token_id) token_data
      match v3_to_v2_token token_data token_id with
      | Except.error e => if e = Err.unauthorized then M.pure () else M.throw e
      | Except.ok v2_token_data => cacheSet Fn.v2t (Arg.str token_id) v2_token_data
    M.pure (token_id, token_data)

/-- The `KeystoneToken` attributes `revoke_token` reads. -/
structure KTokView where
  project : Option String
  domain : Option String
  audit_id : String
  audit_chain_id : String
deriving DecidableEq, Repr

/-- Modelled from the spec: the `token_model.KeystoneToken` wrapper is not
under `src/`.  It rejects data with neither shape, exposes the optional
project/domain scope, and `audit_ids[0]` / `audit_ids[-1]` as audit id and
audit chain id. -/
def keystone_token_of (p : Payload) : Except Err KTokView :=
  if p.access.isNone && p.token.isNone then Except.error Err.unsupportedTokenVersion
  else
    match p.audit_ids with
    | [] => Except.error Err.keyError
    | a :: rest =>
      Except.ok { project := p.project, domain := p.domain, audit_id := a,
                  audit_chain_id := List.getLastD rest a }

/-- Modelled from the spec: `revoke_api.revoke_by_audit_id` — record the
audit id in the revocation registry. -/
def revoke_by_audit_id (audit_id : String) : M Unit := fun s =>
  (Except.ok (), { s with revoked := s.revoked ++ [audit_id] })

/-- Modelled from the spec: `revoke_api.revoke_by_audit_chain_id` — record
the chain id in the revocation registry (the project/domain scoping of the
event is carried by the registry model). -/
def revoke_by_audit_chain_id (audit_chain_id : String) (project_id : Option String)
    (domain_id : Option String) : M Unit := fun s =>
  (Except.ok (), { s with revoked := s.revoked ++ [audit_chain_id] })

/-- `revoke_token` (lines 475-491): resolve and fully validate the token
first, then revoke its audit id (or its audit chain), then — only with
`revoke_by_id` and a persisting driver — delete the persisted record (by
the raw presented id). -/
def revoke_token (env : Env) (now : Int) (token_id : String)
    (revoke_chain : Bool) : M Unit := do
  let token_data ← validate_token env now token_id none
  let token_ref ← M.liftE (keystone_token_of token_data)
  let project_id := token_ref.project
  let domain_id := token_ref.domain
  if revoke_chain then
    revoke_by_audit_chain_id token_ref.audit_chain_id project_id domain_id
  else
    revoke_by_audit_id token_ref.audit_id
  if env.cfg.revoke_by_id && env.driver.needs_persistence then
    storeDelete token_id
  M.pure ()

/-- `_trust_deleted_event_callback` (lines 496-505). -/
def _trust_deleted_event_callback (env : Env) (trust_id : String) : M Unit := do
  if env.cfg.revoke_by_id then
    let trust := env.trusts trust_id
    storeDeleteFor { user_id := some trust.trustor_user_id, domain_id := none,
                     project_id := none, trust_id := some trust_id, consumer_id := none }
  if env.cfg.cache_on_issue then regionInvalidate
  M.pure ()

/-- `_delete_user_tokens_callback` (lines 507-514). -/
def _delete_user_tokens_callback (env : Env) (user_id : String) : M Unit := do
  if env.cfg.revoke_by_id then
    storeDeleteFor { user_id := some user_id, domain_id := none, project_id := none,
                     trust_id := none, consumer_id := none }
  if env.cfg.cache_on_issue then regionInvalidate
  M.pure ()

/-- `_delete_domain_tokens_callback` (lines 516-523). -/
def _delete_domain_tokens_callback (env : Env) (domain_id : String) : M Unit := do
  if env.cfg.revoke_by_id then
    storeDeleteFor { user_id := none, domain_id := some domain_id, project_id := none,
                     trust_id := none, consumer_id := none }
  if env.cfg.cache_on_issue then regionInvalidate
  M.pure ()

/-- `_delete_user_project_tokens_callback` (lines 525-534). -/
def _delete_user_project_tokens_callback (env : Env) (user_id : String)
    (project_id : String) : M Unit := do
  if env.cfg.revoke_by_id then
    storeDeleteFor { user_id := some user_id, domain_id := none,
                     project_id := some project_id, trust_id := none, consumer_id := none }
  if env.cfg.cache_on_issue then regionInvalidate
  M.pure ()

/-- `_delete_project_tokens_callback` (lines 536-545): delete for every user
the assignment api lists for the project. -/
def _delete_project_tokens_callback (env : Env) (project_id : String) : M Unit := do
  if env.cfg.revoke_by_id then
    storeDeleteForMany ((env.projectUsers project_id).map (fun u =>
      { user_id := some u, domain_id := none, project_id := some project_id,
        trust_id := none, consumer_id := none }))
  if env.cfg.cache_on_issue then regionInvalidate
  M.pure ()

/-- `_delete_user_oauth_consumer_tokens_callback` (lines 547-557). -/
def _delete_user_oauth_consumer_tokens_callback (env : Env) (user_id : String)
    (consumer_id : String) : M Unit := do
  if env.cfg.revoke_by_id then
    storeDeleteFor { user_id := some user_id, domain_id := none, project_id := none,
                     trust_id := none, consumer_id := some consumer_id }
  if env.cfg.cache_on_issue then regionInvalidate
  M.pure ()

/-- One event-driven bulk-invalidation callback invocation (the handlers
registered in `_register_callback_listeners`, lines 152-179). -/
inductive CbCall
  | trustDeleted (trust_id : String)
  | userTokens (user_id : String)
  | domainTokens (domain_id : String)
  | userProject (user_id : String) (project_id : String)
  | projectTokens (project_id : String)
  | userOauth (user_id : String) (consumer_id : String)

/-- Dispatch an event to its registered callback. -/
def runCallback (env : Env) : CbCall → M Unit
  | CbCall.trustDeleted tid => _trust_deleted_event_callback env tid
  | CbCall.userTokens uid => _delete_user_tokens_callback env uid
  | CbCall.domainTokens did => _delete_domain_tokens_callback env did
  | CbCall.userProject uid pid => _delete_user_project_tokens_callback env uid pid
  | CbCall.projectTokens pid => _delete_project_tokens_callback env pid
  | CbCall.userOauth uid cid => _delete_user_oauth_consumer_tokens_callback env uid cid

/-- The spec-side description of which persisted tokens each callback
targets (§4.3): by user, by domain, by project cross-referenced through
membership, by trustor + trust, or by user + consumer pair. -/
def cbDeletions (env : Env) : CbCall → List DelCriteria
  | CbCall.trustDeleted tid =>
    [{ user_id := some (env.trusts tid).trustor_user_id, domain_id := none,
       project_id := none, trust_id := some tid, consumer_id := none }]
  | CbCall.userTokens uid =>
    [{ user_id := some uid, domain_id := none, project_id := none,
       trust_id := none, consumer_id := none }]
  | CbCall.domainTokens did =>
    [{ user_id := none, domain_id := some did, project_id := none,
       trust_id := none, consumer_id := none }]
  | CbCall.userProject uid pid =>
    [{ user_id := some uid, domain_id := none, project_id := some pid,
       trust_id := none, consumer_id := none }]
  | CbCall.projectTokens pid =>
    (env.projectUsers pid).map (fun u =>
      { user_id := some u, domain_id := none, project_id := some pid,
        trust_id := none, consumer_id := none })
  | CbCall.userOauth uid cid =>
    [{ user_id := some uid, domain_id := none, project_id := none,
       trust_id := none, consumer_id := some cid }]

/-- The empty world: nothing persisted, cold cache, empty revocation
registry. -/
def emptySt : St :=
  { store := [], cache := [], revoked := [], revCount := 0, memoKeys := [] }

/-- A payload shaped like a legacy token: an `access` section with the
nested `['token']` sub-dict present. -/
def LegacyShaped (p : Payload) : Prop :=
  ∃ sec n, p.access = some sec ∧ sec.nested = some n

/-! ## Store/registry preservation of validation -/

/-- A computation that never touches the persisted store or the revocation
registry. -/
def PreservesSR (m : M α) : Prop :=
  ∀ s, ((m s).2).store = s.store ∧ ((m s).2).revoked = s.revoked

/-! ## Error-boundary classification -/

/-- The documented driver contract (spec §6, and the `Provider` abstract
docstrings, lines 634-668): validators fail only with `TokenNotFound` or
`Unauthorized`; non-persistent validation yields current-shaped payloads;
v2 validation yields legacy-shaped payloads. -/
structure DriverOk (d : Driver) : Prop where
  np_err : ∀ id e, d.validate_np id = Except.error e →
    e = Err.tokenNotFound ∨ e = Err.unauthorized
  np_shape : ∀ id p, d.validate_np id = Except.ok p → p.token.isSome = true
  v2_err : ∀ r e, d.validate_v2 r = Except.error e →
    e = Err.tokenNotFound ∨ e = Err.unauthorized
  v2_shape : ∀ r p, d.validate_v2 r = Except.ok p → LegacyShaped p
  v3_err : ∀ r e, d.validate_v3 r = Except.error e →
    e = Err.tokenNotFound ∨ e = Err.unauthorized

/-- Cache entries respect the shape of what the corresponding memoized
function computes (as every entry written by the code does). -/
structure CacheOk (st : St) : Prop where
  v2t_shape : ∀ a p, cacheGet st.cache (Fn.v2t, a) = some p → LegacyShaped p
  np_shape : ∀ a p, cacheGet st.cache (Fn.np, a) = some p → p.token.isSome = true

/-! ## Memoization-key traces -/

/-- A computation that performs no memoized lookup (leaves the `memoKeys`
trace unchanged). -/
def KeepsKeys (m : M α) : Prop := ∀ s, ((m s).2).memoKeys = s.memoKeys

/-! ## Concrete fixtures used by witnesses and counterexamples -/

/-- A minimal well-formed current-version payload. -/
def trivialPayload : Payload :=
  { token := some { expires_at := Field.time 100, expires := Field.missing, nested := none },
    access := none, user_id := "user-1", project := none, domain := none, roles := [],
    is_domain := false, audit_ids := ["audit-1"], trust := none, oauth := false }

/-- A minimal persisted record holding `trivialPayload`. -/
def trivialRecord : Record :=
  { id := "tok-1", expires := Field.time 100, user := "user-1", tenant := none,
    domain := none, is_domain := false,
    metadata := { roles := [], trust_id := none, trustee_user_id := none },
    token_data := trivialPayload, trust_id := none, consumer_id := none,
    token_version := V3 }

/-- A legacy-shaped payload carrying tenant `"tenant-A"` that expired at
time `0`. -/
def c4payload : Payload :=
  { token := none,
    access := some { expires_at := Field.missing, expires := Field.missing,
                     nested := some { expires := Field.time 3, tenant := some "tenant-A" } },
    user_id := "user-1", project := some "tenant-A", domain := none, roles := [],
    is_domain := false, audit_ids := ["audit-1"], trust := none, oauth := false }

/-- A trust lookup with no interesting content, for environments whose
claims never consult it. -/
def noTrusts : String → TrustRef :=
  fun t => { trust_id := t, trustor_user_id := "nobody", trustee_user_id := "nobody" }

/-- A membership lookup with no members. -/
def noProjectUsers : String → List String := fun _ => []

/-- A legacy-shaped payload with tenant `"tenant-A"` whose (nested) expiry
is time `0`. -/
def c1payload : Payload :=
  { token := none,
    access := some { expires_at := Field.missing, expires := Field.missing,
                     nested := some { expires := Field.time 0,
                                      tenant := some "tenant-A" } },
    user_id := "user-1", project := some "tenant-A", domain := none, roles := [],
    is_domain := false, audit_ids := ["audit-1"], trust := none, oauth := false }

/-- A non-persisting environment whose driver resolves every id to
`c1payload`. -/
def c1env : Env :=
  { cfg := { cache_on_issue := false, revoke_by_id := false },
    driver := { needs_persistence := false,
                validate_np := fun _ => Except.ok c1payload,
                validate_v2 := fun _ => Except.error Err.tokenNotFound,
                validate_v3 := fun _ => Except.error Err.tokenNotFound,
                issue_v3 := fun _ => Except.error Err.tokenNotFound },
    trusts := noTrusts, projectUsers := noProjectUsers }

/-- A persisting environment whose v2 driver validation resolves every
record to `c1payload`. -/
def c1penv : Env :=
  { cfg := { cache_on_issue := false, revoke_by_id := false },
    driver := { needs_persistence := true,
                validate_np := fun _ => Except.error Err.tokenNotFound,
                validate_v2 := fun _ => Except.ok c1payload,
                validate_v3 := fun _ => Except.error Err.tokenNotFound,
                issue_v3 := fun _ => Except.error Err.tokenNotFound },
    trusts := noTrusts, projectUsers := noProjectUsers }

/-- A persisted legacy record for `"token-1"` holding `c1payload`. -/
def c1record : Record :=
  { id := "token-1", expires := Field.time 0, user := "user-1",
    tenant := some "tenant-A", domain := none, is_domain := false,
    metadata := { roles := [], trust_id := none, trustee_user_id := none },
    token_data := c1payload, trust_id := none, consumer_id := none,
    token_version := V2 }

/-- A store holding only `c1record` under `"token-1"`. -/
def c1st : St :=
  { store := [("token-1", c1record)], cache := [], revoked := [], revCount := 0,
    memoKeys := [] }

/-- A persisted record whose `token_version` tag is neither of the two
supported versions. -/
def c2record : Record :=
  { id := "token-2", expires := Field.time 100, user := "user-1", tenant := none,
    domain := none, is_domain := false,
    metadata := { roles := [], trust_id := none, trustee_user_id := none },
    token_data := trivialPayload, trust_id := none, consumer_id := none,
    token_version := "v9.0" }

/-- A store holding only the unsupported-version record `c2record`. -/
def c2st : St :=
  { store := [("token-2", c2record)], cache := [], revoked := [], revCount := 0,
    memoKeys := [] }

/-- A persisting environment whose driver validators never raise anything
but `TokenNotFound`. -/
def c2env : Env :=
  { cfg := { cache_on_issue := false, revoke_by_id := false },
    driver := { needs_persistence := true,
                validate_np := fun _ => Except.error Err.tokenNotFound,
                validate_v2 := fun _ => Except.error Err.tokenNotFound,
                validate_v3 := fun _ => Except.error Err.tokenNotFound,
                issue_v3 := fun _ => Except.error Err.tokenNotFound },
    trusts := noTrusts, projectUsers := noProjectUsers }

/-- An environment whose driver finds no token at all. -/
def c8env : Env :=
  { cfg := { cache_on_issue := false, revoke_by_id := true },
    driver := { needs_persistence := false,
                validate_np := fun _ => Except.error Err.tokenNotFound,
                validate_v2 := fun _ => Except.error Err.tokenNotFound,
                validate_v3 := fun _ => Except.error Err.tokenNotFound,
                issue_v3 := fun _ => Except.error Err.tokenNotFound },
    trusts := noTrusts, projectUsers := noProjectUsers }

/-- A current-shaped payload expiring at time 5, used for cache-hit
validation runs. -/
def c3payload : Payload :=
  { token := some { expires_at := Field.time 5, expires := Field.missing, nested := none },
    access := none, user_id := "user-1", project := none, domain := none, roles := [],
    is_domain := false, audit_ids := ["audit-1"], trust := none, oauth := false }

/-- A state whose only content is a pre-seeded `_validate_token` cache
entry for `"token-1"`. -/
def c3st : St :=
  { store := [], cache := [((Fn.vt, Arg.str "token-1"), c3payload)], revoked := [],
    revCount := 0, memoKeys := [] }

/-- A current-version payload carrying a delegated-trust reference, whose
legacy view therefore cannot be synthesized. -/
def c9payload : Payload :=
  { token := some { expires_at := Field.time 100, expires := Field.missing, nested := none },
    access := none, user_id := "user-1", project := none, domain := none, roles := [],
    is_domain := false, audit_ids := ["audit-1"],
    trust := some { trust_id := "trust-1", trustor_user_id := "user-2",
                    trustee_user_id := "user-1" },
    oauth := false }

/-- A non-persisting, cache-on-issue environment minting `c9payload` as
`"token-9"`. -/
def c9env : Env :=
  { cfg := { cache_on_issue := true, revoke_by_id := false },
    driver := { needs_persistence := false,
                validate_np := fun _ => Except.error Err.tokenNotFound,
                validate_v2 := fun _ => Except.error Err.tokenNotFound,
                validate_v3 := fun _ => Except.error Err.tokenNotFound,
                issue_v3 := fun _ => Except.ok ("token-9", c9payload) },
    trusts := noTrusts, projectUsers := noProjectUsers }

/-- Issuance inputs for the `c9env` run. -/
def c9inp : IssueIn :=
  { request := "issue-9", is_domain := false,
    trust := some { trust_id := "trust-1", trustor_user_id := "user-2",
                    trustee_user_id := "user-1" },
    metadata_ref := none }

/-! ## Theorems -/

theorem b64val_b64char_fin : ∀ n : Fin 64, b64val (b64char n.val) = some n.val := by decide

theorem b64char_ne_pad_fin : ∀ n : Fin 64, b64char n.val ≠ '=' := by decide

theorem b64val_b64char (n : Nat) (h : n < 64) : b64val (b64char n) = some n :=
  b64val_b64char_fin ⟨n, h⟩

theorem b64char_ne_pad (n : Nat) (h : n < 64) : b64char n ≠ '=' :=
  b64char_ne_pad_fin ⟨n, h⟩

/-- Decoding inverts encoding on byte lists whose length is `1 mod 3`
(such as the 16 bytes of a UUID). -/
theorem decodeChunks_encodeChunks :
    ∀ l : List Nat, (∀ x ∈ l, x < 256) → l.length % 3 = 1 →
      decodeChunks (encodeChunks l) = some l
  | [], _, hl => by simp at hl
  | [a], hb, _ => by
    have ha : a < 256 := hb a (by simp)
    have h1 : b64val (b64char (a / 4)) = some (a / 4) := b64val_b64char _ (by omega)
    have h2 : b64val (b64char (a % 4 * 16)) = some (a % 4 * 16) := b64val_b64char _ (by omega)
    simp only [encodeChunks, decodeChunks, h1, h2]
    simp only [reduceIte, and_true]
    simp
    omega
  | [a, b], _, hl => by simp at hl
  | a :: b :: c :: rest, hb, hl => by
    have ha : a < 256 := hb a (by simp)
    have hb' : b < 256 := hb b (by simp)
    have hc : c < 256 := hb c (by simp)
    have hrest : ∀ x ∈ rest, x < 256 := fun x hx => hb x (by simp [hx])
    have hlrest : rest.length % 3 = 1 := by
      simp only [List.length_cons] at hl
      omega
    have ih := decodeChunks_encodeChunks rest hrest hlrest
    have h1 : b64val (b64char (a / 4)) = some (a / 4) := b64val_b64char _ (by omega)
    have h2 : b64val (b64char (a % 4 * 16 + b / 16)) = some (a % 4 * 16 + b / 16) :=
      b64val_b64char _ (by omega)
    have h3 : b64val (b64char (b % 16 * 4 + c / 64)) = some (b % 16 * 4 + c / 64) :=
      b64val_b64char _ (by omega)
    have h4 : b64val (b64char (c % 64)) = some (c % 64) := b64val_b64char _ (by omega)
    have hne3 : b64char (b % 16 * 4 + c / 64) ≠ '=' := b64char_ne_pad _ (by omega)
    have hne4 : b64char (c % 64) ≠ '=' := b64char_ne_pad _ (by omega)
    simp only [encodeChunks, decodeChunks, h1, h2, h3, h4, if_neg hne3, if_neg hne4, ih]
    have e1 : a / 4 * 4 + (a % 4 * 16 + b / 16) / 16 = a := by omega
    have e2 : (a % 4 * 16 + b / 16) % 16 * 16 + (b % 16 * 4 + c / 64) / 4 = b := by omega
    have e3 : (b % 16 * 4 + c / 64) % 4 * 64 + c % 64 = c := by omega
    simp [e1, e2, e3]

/-- On byte lists of length `1 mod 3` the encoding ends in the two-character
`==` padding. -/
theorem encodeChunks_pad :
    ∀ l : List Nat, l.length % 3 = 1 → ∃ e, encodeChunks l = e ++ ['=', '=']
  | [], hl => by simp at hl
  | [a], _ => ⟨[b64char (a / 4), b64char (a % 4 * 16)], rfl⟩
  | [a, b], hl => by simp at hl
  | a :: b :: c :: rest, hl => by
    have hlrest : rest.length % 3 = 1 := by
      simp only [List.length_cons] at hl
      omega
    obtain ⟨e, he⟩ := encodeChunks_pad rest hlrest
    refine ⟨b64char (a / 4) :: b64char (a % 4 * 16 + b / 16) ::
      b64char (b % 16 * 4 + c / 64) :: b64char (c % 64) :: e, ?_⟩
    simp [encodeChunks, he]

theorem take_append_self (e p : List Char) : (e ++ p).take e.length = e := by
  induction e with
  | nil => rfl
  | cons x xs ih => simp [List.take, ih]

/-- Chopping the padding and restoring it is the identity on encodings of
byte lists of length `1 mod 3`. -/
theorem strip_pad_restore (l : List Nat) (hl : l.length % 3 = 1) :
    random_urlsafe_str_of l ++ ['=', '='] = encodeChunks l := by
  obtain ⟨e, he⟩ := encodeChunks_pad l hl
  rw [random_urlsafe_str_of, he]
  have hlen : (e ++ ['=', '=']).length - 2 = e.length := by simp
  rw [hlen, take_append_self]

theorem M.run_bind (m : M α) (f : α → M β) (s : St) :
    (m >>= f) s = match m s with
      | (Except.ok a, s1) => f a s1
      | (Except.error e, s1) => (Except.error e, s1) := rfl

theorem M.run_pure (a : α) (s : St) : (Pure.pure a : M α) s = (Except.ok a, s) := rfl

theorem M.ite_run (c : Prop) [Decidable c] (f g : M α) (s : St) :
    (if c then f else g) s = if c then f s else g s := by
  split <;> rfl

/-- Length of the encoding of a byte list of length `1 mod 3`. -/
theorem encodeChunks_length :
    ∀ l : List Nat, l.length % 3 = 1 → (encodeChunks l).length = l.length / 3 * 4 + 4
  | [], hl => by simp at hl
  | [a], _ => by simp [encodeChunks]
  | [a, b], hl => by simp at hl
  | a :: b :: c :: rest, hl => by
    have hlrest : rest.length % 3 = 1 := by
      simp only [List.length_cons] at hl
      omega
    have ih := encodeChunks_length rest hlrest
    simp only [encodeChunks, List.length_cons, ih]
    omega

/-! ## Generic run lemmas -/

theorem bind_error_cases (m : M α) (f : α → M β) (s : St) (e : Err)
    (h : ((m >>= f) s).1 = Except.error e) :
    (∃ s1, m s = (Except.error e, s1)) ∨
      ∃ a s1, m s = (Except.ok a, s1) ∧ (f a s1).1 = Except.error e := by
  have hb : (m >>= f) s = M.bind m f s := rfl
  rw [hb, M.bind] at h
  rcases hm : m s with ⟨r, s1⟩
  rw [hm] at h
  cases r with
  | ok a => exact Or.inr ⟨a, s1, rfl, h⟩
  | error e1 =>
    simp only at h
    cases h
    exact Or.inl ⟨s1, rfl⟩

theorem bind_ok_cases (m : M α) (f : α → M β) (s : St) (b : β) (s2 : St)
    (h : (m >>= f) s = (Except.ok b, s2)) :
    ∃ a s1, m s = (Except.ok a, s1) ∧ f a s1 = (Except.ok b, s2) := by
  have hb : (m >>= f) s = M.bind m f s := rfl
  rw [hb, M.bind] at h
  rcases hm : m s with ⟨r, s1⟩
  rw [hm] at h
  cases r with
  | ok a => exact ⟨a, s1, rfl, h⟩
  | error e1 =>
    simp only at h
    injection h with h1 h2
    cases h1

theorem catchUnauthorized_error_cases (m h' : M α) (s : St) (e : Err)
    (h : (M.catchUnauthorized m h' s).1 = Except.error e) :
    (∃ s1, (m s) = (Except.error e, s1) ∧ e ≠ Err.unauthorized) ∨
      ∃ s1, (h' s1).1 = Except.error e := by
  rw [M.catchUnauthorized] at h
  rcases hm : m s with ⟨r, s1⟩
  rw [hm] at h
  cases r with
  | ok a => simp only at h; cases h
  | error e1 =>
    simp only at h
    by_cases hu : e1 = Err.unauthorized
    · rw [if_pos hu] at h
      exact Or.inr ⟨s1, h⟩
    · rw [if_neg hu] at h
      simp only at h
      cases h
      exact Or.inl ⟨s1, rfl, hu⟩

theorem liftE_error (ex : Except Err α) (s : St) (e : Err)
    (h : (M.liftE ex s).1 = Except.error e) : ex = Except.error e := by
  cases ex with
  | ok a => simp [M.liftE, M.pure] at h
  | error e1 => simp [M.liftE, M.throw] at h; rw [h]

theorem liftE_ok (ex : Except Err α) (s : St) (a : α) (s1 : St)
    (h : M.liftE ex s = (Except.ok a, s1)) : ex = Except.ok a ∧ s1 = s := by
  cases ex with
  | ok b =>
    simp only [M.liftE, M.pure] at h
    cases h
    exact ⟨rfl, rfl⟩
  | error e1 => simp [M.liftE, M.throw] at h

theorem throw_error (e0 : Err) (s : St) (e : Err)
    (h : ((M.throw e0 : M α) s).1 = Except.error e) : e = e0 := by
  simp only [M.throw] at h
  cases h
  rfl

theorem pure_no_error (a : α) (s : St) (e : Err)
    (h : ((M.pure a : M α) s).1 = Except.error e) : False := by
  simp [M.pure] at h

theorem memoized_error_cases (fn : Fn) (arg : Arg) (compute : M Payload) (s : St) (e : Err)
    (h : (memoized fn arg compute s).1 = Except.error e) :
    ∃ s1, (compute s1).1 = Except.error e := by
  rw [memoized] at h
  cases hc : cacheGet s.cache (fn, arg) with
  | some v => rw [hc] at h; simp at h
  | none =>
    rw [hc] at h
    rcases hr : compute { s with memoKeys := s.memoKeys ++ [(fn, arg)] } with ⟨r, s2⟩
    rw [hr] at h
    cases r with
    | ok v => simp at h
    | error e1 =>
      simp only at h
      cases h
      exact ⟨_, by rw [hr]⟩

theorem memoized_ok_cases (fn : Fn) (arg : Arg) (compute : M Payload) (s : St)
    (p : Payload) (s' : St) (h : memoized fn arg compute s = (Except.ok p, s')) :
    cacheGet s.cache (fn, arg) = some p ∨ ∃ s1 s2, compute s1 = (Except.ok p, s2) := by
  rw [memoized] at h
  cases hc : cacheGet s.cache (fn, arg) with
  | some v =>
    rw [hc] at h
    simp only at h
    injection h with h1 h2
    injection h1 with h1
    subst h1
    exact Or.inl rfl
  | none =>
    rw [hc] at h
    rcases hr : compute { s with memoKeys := s.memoKeys ++ [(fn, arg)] } with ⟨r, s2⟩
    rw [hr] at h
    cases r with
    | ok v =>
      simp only at h
      injection h with h1 h2
      injection h1 with h1
      subst h1
      exact Or.inr ⟨_, _, hr⟩
    | error e1 => simp at h

theorem storeGet_error (token_id : String) (s : St) (e : Err)
    (h : (storeGet token_id s).1 = Except.error e) : e = Err.tokenNotFound := by
  rw [storeGet] at h
  cases hl : lookupStore s.store token_id with
  | some r => rw [hl] at h; simp at h
  | none => rw [hl] at h; simp only at h; cases h; rfl

/-! ## Characterization lemmas for the validation steps -/

theorem extract_expiry_section (p : Payload) (t : Int)
    (h : extract_expiry p = some t) : p.token.isSome = true ∨ p.access.isSome = true := by
  rw [extract_expiry] at h
  cases ht : p.token with
  | some sec => exact Or.inl rfl
  | none =>
    cases ha : p.access with
    | some sec => exact Or.inr rfl
    | none =>
      rw [ht, ha] at h
      simp only at h
      cases h

theorem check_token_error (q : RevQuery) (s : St) (e : Err)
    (h : (check_token q s).1 = Except.error e) : e = Err.tokenNotFound := by
  rw [check_token] at h
  split at h
  · cases h; rfl
  · simp at h

theorem check_revocation_error (p : Payload) (s : St) (e : Err)
    (hsec : p.token.isSome = true ∨ p.access.isSome = true)
    (h : (check_revocation p s).1 = Except.error e) : e = Err.tokenNotFound := by
  rw [check_revocation] at h
  rcases bind_error_cases _ _ _ _ h with ⟨s1, hm⟩ | ⟨v, s1, hm, hf⟩
  · have := liftE_error _ _ _ (by rw [hm])
    rw [get_token_version_payload] at this
    cases ha : p.access with
    | some sec => rw [ha] at this; simp at this
    | none =>
      rw [ha] at this
      cases ht : p.token with
      | some sec => rw [ht] at this; simp at this
      | none => rw [ha, ht] at hsec; simp at hsec
  · obtain ⟨he, _⟩ := liftE_ok _ _ _ _ hm
    split at hf
    next hv =>
      rw [check_revocation_v2] at hf
      cases ha : p.access with
      | some sec => rw [ha] at hf; exact check_token_error _ _ _ hf
      | none =>
        rw [get_token_version_payload, ha] at he
        cases ht : p.token with
        | some sec =>
          rw [ht] at he
          simp only [Option.isSome_none, Bool.false_eq_true, if_false, Option.isSome_some,
            if_true] at he
          injection he with he
          rw [← he] at hv
          simp [V2, V3] at hv
        | none => rw [ha, ht] at hsec; simp at hsec
    next hv =>
      rw [check_revocation_v3] at hf
      cases ht : p.token with
      | some sec => rw [ht] at hf; exact check_token_error _ _ _ hf
      | none =>
        rw [get_token_version_payload, ht] at he
        cases ha : p.access with
        | some sec =>
          rw [ha] at he
          simp only [Option.isSome_some, if_true] at he
          injection he with he
          exact absurd he.symm hv
        | none => rw [ha, ht] at hsec; simp at hsec

theorem _is_valid_token_error (now : Int) (p : Payload) (s : St) (e : Err)
    (h : (_is_valid_token now p s).1 = Except.error e) : e = Err.tokenNotFound := by
  rw [_is_valid_token] at h
  cases hx : extract_expiry p with
  | none => rw [hx] at h; exact throw_error _ _ _ h
  | some t =>
    rw [hx] at h
    simp only at h
    rw [M.ite_run] at h
    split at h
    · exact check_revocation_error p s e (extract_expiry_section p t hx) h
    · exact throw_error _ _ _ h

theorem _token_belongs_to_error (p : Payload) (b : Option String) (e : Err)
    (hp : LegacyShaped p) (h : _token_belongs_to p b = Except.error e) :
    e = Err.unauthorized := by
  obtain ⟨sec, n, ha, hn⟩ := hp
  cases b with
  | none => simp [_token_belongs_to] at h
  | some bs =>
    simp only [_token_belongs_to] at h
    split at h
    · cases h
    · simp only [ha, hn] at h
      split at h
      · cases h
      · injection h with h
        rw [h]

theorem v3_to_v2_token_error (p : Payload) (tid : String) (e : Err)
    (hp : p.token.isSome = true) (h : v3_to_v2_token p tid = Except.error e) :
    e = Err.unauthorized := by
  rw [v3_to_v2_token] at h
  split at h
  · injection h with h; rw [h]
  · cases ht : p.token with
    | some sec => rw [ht] at h; simp at h
    | none => rw [ht] at hp; simp at hp

theorem v3_to_v2_token_shape (p : Payload) (tid : String) (q : Payload)
    (h : v3_to_v2_token p tid = Except.ok q) : LegacyShaped q := by
  rw [v3_to_v2_token] at h
  split at h
  · simp at h
  · cases ht : p.token with
    | some sec =>
      rw [ht] at h
      injection h with h
      subst h
      exact ⟨_, _, rfl, rfl⟩
    | none => rw [ht] at h; simp at h

/-! ## Deterministic run lemmas -/

theorem M.run_bind_ok (m : M α) (f : α → M β) (s : St) (a : α) (s1 : St)
    (h : m s = (Except.ok a, s1)) : (m >>= f) s = f a s1 := by
  rw [M.run_bind, h]

theorem M.run_bind_err (m : M α) (f : α → M β) (s : St) (e : Err) (s1 : St)
    (h : m s = (Except.error e, s1)) : (m >>= f) s = (Except.error e, s1) := by
  rw [M.run_bind, h]

theorem M.run_liftE_ok (ex : Except Err α) (a : α) (h : ex = Except.ok a) (s : St) :
    M.liftE ex s = (Except.ok a, s) := by
  rw [h]; rfl

theorem M.run_liftE_err (ex : Except Err α) (e : Err) (h : ex = Except.error e) (s : St) :
    M.liftE ex s = (Except.error e, s) := by
  rw [h]; rfl

theorem M.run_catchU_ok (m h' : M α) (s : St) (a : α) (s1 : St)
    (h : m s = (Except.ok a, s1)) : M.catchUnauthorized m h' s = (Except.ok a, s1) := by
  rw [M.catchUnauthorized, h]

theorem M.run_catchU_err (m h' : M α) (s : St) (e : Err) (s1 : St)
    (h : m s = (Except.error e, s1)) (hne : e ≠ Err.unauthorized) :
    M.catchUnauthorized m h' s = (Except.error e, s1) := by
  rw [M.catchUnauthorized, h]
  simp [hne]

theorem M.run_catchU_ua (m h' : M α) (s : St) (s1 : St)
    (h : m s = (Except.error Err.unauthorized, s1)) :
    M.catchUnauthorized m h' s = h' s1 := by
  rw [M.catchUnauthorized, h]
  simp

theorem storeGet_found (token_id : String) (rec : Record) (s : St)
    (h : lookupStore s.store token_id = some rec) :
    storeGet token_id s = (Except.ok rec, s) := by
  rw [storeGet, h]

theorem storeGet_missing (token_id : String) (s : St)
    (h : lookupStore s.store token_id = none) :
    storeGet token_id s = (Except.error Err.tokenNotFound, s) := by
  rw [storeGet, h]

theorem memoized_hit_run (fn : Fn) (arg : Arg) (compute : M Payload) (s : St) (v : Payload)
    (hcm : cacheGet s.cache (fn, arg) = some v) :
    memoized fn arg compute s =
      (Except.ok v, { s with memoKeys := s.memoKeys ++ [(fn, arg)] }) := by
  simp only [memoized, hcm]

theorem memoized_miss_run (fn : Fn) (arg : Arg) (compute : M Payload) (s : St)
    (v : Payload) (s2 : St) (hcm : cacheGet s.cache (fn, arg) = none)
    (hc : compute { s with memoKeys := s.memoKeys ++ [(fn, arg)] } = (Except.ok v, s2)) :
    memoized fn arg compute s =
      (Except.ok v, { s2 with cache := ((fn, arg), v) :: s2.cache }) := by
  simp only [memoized, hcm, hc]

theorem memoized_miss_err_run (fn : Fn) (arg : Arg) (compute : M Payload) (s : St)
    (e : Err) (s2 : St) (hcm : cacheGet s.cache (fn, arg) = none)
    (hc : compute { s with memoKeys := s.memoKeys ++ [(fn, arg)] } = (Except.error e, s2)) :
    memoized fn arg compute s = (Except.error e, s2) := by
  simp only [memoized, hcm, hc]

theorem resolve_v2_run (env : Env) (uid : String) (rec : Record) (s : St)
    (hnp : env.driver.needs_persistence = true)
    (hs : lookupStore s.store uid = some rec) (hver : rec.token_version = V2) :
    _validate_token_resolve env uid s = (Except.ok (Sum.inr (rec, V2)), s) := by
  rw [_validate_token_resolve, M.ite_run, hnp]
  simp only [Bool.not_true, Bool.false_eq_true, if_false]
  rw [M.run_bind_ok _ _ _ _ _ (storeGet_found uid rec s hs)]
  rw [M.run_bind_ok _ _ _ _ _
    (M.run_liftE_ok _ _ (by rw [get_token_version_rec, if_pos hver]) s)]
  rw [M.ite_run, if_neg (show ¬(V2 = V3) by decide)]
  rfl

theorem _validate_token_body_v2_run (env : Env) (uid : String) (rec : Record)
    (q : Payload) (s : St) (huid : uid ≠ "")
    (hnp : env.driver.needs_persistence = true)
    (hs : lookupStore s.store uid = some rec) (hver : rec.token_version = V2)
    (hdrv : env.driver.validate_v2 rec = Except.ok q) :
    _validate_token_body env uid s = (Except.ok q, s) := by
  rw [_validate_token_body, if_neg huid]
  rw [M.run_bind_ok _ _ _ _ _
    (M.run_catchU_ok _ _ _ _ _ (resolve_v2_run env uid rec s hnp hs hver))]
  show (if (rec, V2).2 = V2 then M.liftE (env.driver.validate_v2 (rec, V2).1)
    else M.throw Err.unsupportedTokenVersion) s = (Except.ok q, s)
  rw [M.ite_run, if_pos (show (rec, V2).2 = V2 from rfl)]
  exact M.run_liftE_ok _ _ hdrv s

theorem _validate_token_run_miss (env : Env) (uid : String) (q : Payload) (s s2 : St)
    (hcm : cacheGet s.cache (Fn.vt, Arg.str uid) = none)
    (hb : _validate_token_body env uid
      { s with memoKeys := s.memoKeys ++ [(Fn.vt, Arg.str uid)] } = (Except.ok q, s2)) :
    _validate_token env uid s =
      (Except.ok q, { s2 with cache := ((Fn.vt, Arg.str uid), q) :: s2.cache }) := by
  rw [_validate_token]
  exact memoized_miss_run _ _ _ _ _ _ hcm hb

/-- The tail of a validation flow — `belongs_to` check, then expiry +
revocation, then return — short-circuits with the scope-binding failure as
soon as `_token_belongs_to` rejects, regardless of expiry. -/
theorem post_checks_mismatch (q : Payload) (now : Int) (b : Option String) (s : St)
    (hbt : _token_belongs_to q b = Except.error Err.unauthorized) :
    (M.liftE (_token_belongs_to q b) >>= fun _ =>
      _is_valid_token now q >>= fun _ => M.pure q) s = (Except.error Err.unauthorized, s) :=
  M.run_bind_err _ _ _ _ _ (M.run_liftE_err _ _ hbt s)

theorem _validate_token_run_hit (env : Env) (uid : String) (s : St) (p : Payload)
    (hcm : cacheGet s.cache (Fn.vt, Arg.str uid) = some p) :
    _validate_token env uid s =
      (Except.ok p, { s with memoKeys := s.memoKeys ++ [(Fn.vt, Arg.str uid)] }) := by
  rw [_validate_token]
  exact memoized_hit_run _ _ _ _ _ hcm

theorem _is_valid_token_run_expired (now : Int) (p : Payload) (s : St) (t : Int)
    (hexp : extract_expiry p = some t) (hle : t ≤ now) :
    _is_valid_token now p s = (Except.error Err.tokenNotFound, s) := by
  rw [_is_valid_token, hexp]
  simp only
  rw [M.ite_run, if_neg (by omega)]
  rfl

theorem _is_valid_token_run_live (now : Int) (p : Payload) (s : St) (t : Int)
    (hexp : extract_expiry p = some t) (hlt : now < t) :
    _is_valid_token now p s = check_revocation p s := by
  rw [_is_valid_token, hexp]
  simp only
  rw [M.ite_run, if_pos hlt]

theorem bind_pure_snd (m : M α) (b : β) (s : St) :
    (((m >>= fun _ => M.pure b)) s).2 = (m s).2 := by
  rw [M.run_bind]
  rcases m s with ⟨r, s1⟩
  cases r <;> rfl

/-- Consulting the revocation registry bumps the `revCount` trace by exactly
one, whatever the outcome, whenever the payload has a classifiable shape. -/
theorem check_revocation_revCount (p : Payload) (s : St)
    (hsec : p.token.isSome = true ∨ p.access.isSome = true) :
    ((check_revocation p s).2).revCount = s.revCount + 1 := by
  rw [check_revocation]
  cases ha : p.access with
  | some sec =>
    have hgv : get_token_version_payload p = Except.ok V2 := by
      rw [get_token_version_payload, ha]
      simp
    rw [M.run_bind_ok _ _ _ _ _ (M.run_liftE_ok _ _ hgv s)]
    beta_reduce
    rw [M.ite_run, if_pos (show V2 = V2 from rfl)]
    rw [check_revocation_v2, ha]
    simp only [check_token]
    split <;> rfl
  | none =>
    cases ht : p.token with
    | some sec =>
      have hgv : get_token_version_payload p = Except.ok V3 := by
        rw [get_token_version_payload, ha, ht]
        simp
      rw [M.run_bind_ok _ _ _ _ _ (M.run_liftE_ok _ _ hgv s)]
      beta_reduce
      rw [M.ite_run, if_neg (show ¬(V3 = V2) by decide)]
      rw [check_revocation_v3, ht]
      simp only [check_token]
      split <;> rfl
    | none =>
      rw [ha, ht] at hsec
      simp at hsec

theorem preserves_bind (m : M α) (f : α → M β) (hm : PreservesSR m)
    (hf : ∀ a, PreservesSR (f a)) : PreservesSR (m >>= f) := by
  intro s
  rw [M.run_bind]
  rcases hms : m s with ⟨r, s1⟩
  have h1 := hm s
  rw [hms] at h1
  cases r with
  | ok a =>
    have h2 := hf a s1
    exact ⟨h2.1.trans h1.1, h2.2.trans h1.2⟩
  | error e => exact h1

theorem preserves_pure (a : α) : PreservesSR (M.pure a) := fun _ => ⟨rfl, rfl⟩

theorem preserves_throw (e : Err) : PreservesSR (M.throw e : M α) := fun _ => ⟨rfl, rfl⟩

theorem preserves_liftE (ex : Except Err α) : PreservesSR (M.liftE ex) := by
  cases ex with
  | ok a => exact preserves_pure a
  | error e => exact preserves_throw e

theorem preserves_ite (c : Prop) [Decidable c] (m1 m2 : M α) (h1 : PreservesSR m1)
    (h2 : PreservesSR m2) : PreservesSR (if c then m1 else m2) := by
  split
  · exact h1
  · exact h2

theorem preserves_catchU (m h' : M α) (hm : PreservesSR m) (hh : PreservesSR h') :
    PreservesSR (M.catchUnauthorized m h') := by
  intro s
  rw [M.catchUnauthorized]
  rcases hms : m s with ⟨r, s1⟩
  have h1 := hm s
  rw [hms] at h1
  cases r with
  | ok a => exact h1
  | error e =>
    simp only
    split
    · have h2 := hh s1
      exact ⟨h2.1.trans h1.1, h2.2.trans h1.2⟩
    · exact h1

theorem preserves_memoized (fn : Fn) (arg : Arg) (compute : M Payload)
    (hc : PreservesSR compute) : PreservesSR (memoized fn arg compute) := by
  intro s
  simp only [memoized]
  cases hcg : cacheGet s.cache (fn, arg) with
  | some v => exact ⟨rfl, rfl⟩
  | none =>
    rcases hcs : compute { s with memoKeys := s.memoKeys ++ [(fn, arg)] } with ⟨r, s2⟩
    have h1 := hc { s with memoKeys := s.memoKeys ++ [(fn, arg)] }
    rw [hcs] at h1
    cases r with
    | ok v => exact h1
    | error e => exact h1

theorem preserves_storeGet (token_id : String) : PreservesSR (storeGet token_id) := by
  intro s
  rw [storeGet]
  cases lookupStore s.store token_id with
  | some r => exact ⟨rfl, rfl⟩
  | none => exact ⟨rfl, rfl⟩

theorem preserves_check_token (q : RevQuery) : PreservesSR (check_token q) := by
  intro s
  rw [check_token]
  split <;> exact ⟨rfl, rfl⟩

theorem preserves_check_revocation (p : Payload) : PreservesSR (check_revocation p) := by
  rw [check_revocation]
  refine preserves_bind _ _ (preserves_liftE _) (fun v => ?_)
  refine preserves_ite _ _ _ ?_ ?_
  · rw [check_revocation_v2]
    cases p.access with
    | none => exact preserves_throw _
    | some sec => exact preserves_check_token _
  · rw [check_revocation_v3]
    cases p.token with
    | none => exact preserves_throw _
    | some sec => exact preserves_check_token _

theorem preserves_is_valid (now : Int) (p : Payload) :
    PreservesSR (_is_valid_token now p) := by
  rw [_is_valid_token]
  cases extract_expiry p with
  | none => exact preserves_throw _
  | some t =>
    exact preserves_ite _ _ _ (preserves_check_revocation p) (preserves_throw _)

theorem preserves_validate_np (env : Env) (token_id : String) :
    PreservesSR (validate_non_persistent_token env token_id) := by
  rw [validate_non_persistent_token]
  exact preserves_memoized _ _ _ (preserves_liftE _)

theorem preserves_validate_token (env : Env) (now : Int) (token_id : String)
    (belongs_to : Option String) :
    PreservesSR (validate_token env now token_id belongs_to) := by
  rw [validate_token]
  refine preserves_bind _ _ ?_ (fun p => ?_)
  · rw [_validate_token]
    refine preserves_memoized _ _ _ ?_
    rw [_validate_token_body]
    refine preserves_ite _ _ _ (preserves_throw _) ?_
    refine preserves_bind _ _ ?_ (fun r => ?_)
    · refine preserves_catchU _ _ ?_ (preserves_throw _)
      rw [_validate_token_resolve]
      refine preserves_ite _ _ _ ?_ ?_
      · exact preserves_bind _ _ (preserves_liftE _) (fun p => preserves_pure _)
      · refine preserves_bind _ _ (preserves_storeGet _) (fun rec => ?_)
        refine preserves_bind _ _ (preserves_liftE _) (fun v => ?_)
        refine preserves_ite _ _ _ ?_ (preserves_pure _)
        exact preserves_bind _ _ (preserves_liftE _) (fun p => preserves_pure _)
    · cases r with
      | inl token => exact preserves_pure _
      | inr rv => exact preserves_ite _ _ _ (preserves_liftE _) (preserves_throw _)
  · refine preserves_bind _ _ (preserves_liftE _) (fun u => ?_)
    exact preserves_bind _ _ (preserves_is_valid now p) (fun u => preserves_pure _)

theorem get_token_version_rec_error (r : Record) (e : Err)
    (h : get_token_version_rec r = Except.error e) : e = Err.unsupportedTokenVersion := by
  rw [get_token_version_rec] at h
  split at h
  · cases h
  · split at h
    · cases h
    · injection h with h
      rw [h]

theorem resolve_err_class (env : Env) (uid : String) (s : St) (e : Err)
    (hd : DriverOk env.driver)
    (h : (_validate_token_resolve env uid s).1 = Except.error e) :
    e = Err.tokenNotFound ∨ e = Err.unauthorized ∨ e = Err.unsupportedTokenVersion := by
  rw [_validate_token_resolve, M.ite_run] at h
  by_cases hb : (!env.driver.needs_persistence) = true
  · rw [if_pos hb] at h
    rcases bind_error_cases _ _ _ _ h with ⟨s1, hm⟩ | ⟨p, s1, hm, hf⟩
    · rcases hd.np_err uid e (liftE_error _ _ _ (by rw [hm])) with h1 | h1
      · exact Or.inl h1
      · exact Or.inr (Or.inl h1)
    · exact (pure_no_error (Sum.inl p : Sum Payload (Record × String)) s1 e hf).elim
  · rw [if_neg hb] at h
    rcases bind_error_cases _ _ _ _ h with ⟨s1, hm⟩ | ⟨rec, s1, hm, hf⟩
    · exact Or.inl (storeGet_error _ _ _ (by rw [hm]))
    · have hf2 : ((M.liftE (get_token_version_rec rec) >>= fun version =>
          if version = V3 then
            M.liftE (env.driver.validate_v3 rec) >>= fun p =>
              M.pure (Sum.inl p : Sum Payload (Record × String))
          else M.pure (Sum.inr (rec, version))) s1).1 = Except.error e := hf
      rcases bind_error_cases _ _ _ _ hf2 with ⟨s2, hm2⟩ | ⟨ver, s2, hm2, hf3⟩
      · exact Or.inr (Or.inr
          (get_token_version_rec_error rec e (liftE_error _ _ _ (by rw [hm2]))))
      · by_cases hv : ver = V3
        · rw [M.ite_run, if_pos hv] at hf3
          rcases bind_error_cases _ _ _ _ hf3 with ⟨s3, hm3⟩ | ⟨p, s3, hm3, hf4⟩
          · rcases hd.v3_err rec e (liftE_error _ _ _ (by rw [hm3])) with h1 | h1
            · exact Or.inl h1
            · exact Or.inr (Or.inl h1)
          · exact (pure_no_error (Sum.inl p : Sum Payload (Record × String)) s3 e hf4).elim
        · rw [M.ite_run, if_neg hv] at hf3
          exact (pure_no_error (Sum.inr (rec, ver) : Sum Payload (Record × String))
            s2 e hf3).elim

theorem _validate_token_body_err_class (env : Env) (uid : String) (s : St) (e : Err)
    (hd : DriverOk env.driver)
    (h : (_validate_token_body env uid s).1 = Except.error e) :
    e = Err.tokenNotFound ∨ e = Err.unauthorized ∨ e = Err.unsupportedTokenVersion := by
  rw [_validate_token_body] at h
  by_cases htid : uid = ""
  · rw [if_pos htid] at h
    exact Or.inl (throw_error _ _ _ h)
  · rw [if_neg htid] at h
    rcases bind_error_cases _ _ _ _ h with ⟨s1, hm⟩ | ⟨r, s1, hm, hf⟩
    · rcases catchUnauthorized_error_cases _ _ _ _ (by rw [hm]) with
        ⟨s2, hin, hne⟩ | ⟨s2, hh⟩
      · exact resolve_err_class env uid s e hd (by rw [hin])
      · exact Or.inl (throw_error _ _ _ hh)
    · cases r with
      | inl token => exact (pure_no_error token s1 e hf).elim
      | inr rv =>
        have hf2 : ((if rv.2 = V2 then M.liftE (env.driver.validate_v2 rv.1)
            else M.throw Err.unsupportedTokenVersion) s1).1 = Except.error e := hf
        rw [M.ite_run] at hf2
        by_cases hv : rv.2 = V2
        · rw [if_pos hv] at hf2
          rcases hd.v2_err rv.1 e (liftE_error _ _ _ hf2) with h1 | h1
          · exact Or.inl h1
          · exact Or.inr (Or.inl h1)
        · rw [if_neg hv] at hf2
          exact Or.inr (Or.inr (throw_error _ _ _ hf2))

theorem post_checks_err_class (p : Payload) (now : Int) (b : Option String) (s : St)
    (e : Err) (hp : LegacyShaped p)
    (h : ((M.liftE (_token_belongs_to p b) >>= fun _ =>
        _is_valid_token now p >>= fun _ => M.pure p) s).1 = Except.error e) :
    e = Err.tokenNotFound ∨ e = Err.unauthorized := by
  rcases bind_error_cases _ _ _ _ h with ⟨s1, hm⟩ | ⟨u, s1, hm, hf⟩
  · exact Or.inr (_token_belongs_to_error p b e hp (liftE_error _ _ _ (by rw [hm])))
  · have hf2 : ((_is_valid_token now p >>= fun _ => M.pure p) s1).1 = Except.error e := hf
    rcases bind_error_cases _ _ _ _ hf2 with ⟨s2, hm2⟩ | ⟨u2, s2, hm2, hf3⟩
    · exact Or.inl (_is_valid_token_error now p s1 e (by rw [hm2]))
    · exact (pure_no_error p s2 e hf3).elim

theorem validate_token_err_class (env : Env) (st : St) (now : Int) (tid : String)
    (e : Err) (hd : DriverOk env.driver)
    (h : (validate_token env now tid none st).1 = Except.error e) :
    e = Err.tokenNotFound ∨ e = Err.unauthorized ∨ e = Err.unsupportedTokenVersion := by
  rw [validate_token] at h
  rcases bind_error_cases _ _ _ _ h with ⟨s1, hm⟩ | ⟨p, s1, hm, hf⟩
  · have h1 : ((_validate_token env (generate_unique_id tid)) st).1 = Except.error e := by
      rw [hm]
    rw [_validate_token] at h1
    obtain ⟨s2, h2⟩ := memoized_error_cases _ _ _ _ _ h1
    exact _validate_token_body_err_class env _ s2 e hd h2
  · have hf2 : ((M.liftE (_token_belongs_to p none) >>= fun _ =>
        _is_valid_token now p >>= fun _ => M.pure p) s1).1 = Except.error e := hf
    rcases bind_error_cases _ _ _ _ hf2 with ⟨s2, hm2⟩ | ⟨u, s2, hm2, hf3⟩
    · exact absurd (liftE_error _ _ _ (by rw [hm2]))
        (by simp [_token_belongs_to])
    · have hf4 : ((_is_valid_token now p >>= fun _ => M.pure p) s2).1 = Except.error e := hf3
      rcases bind_error_cases _ _ _ _ hf4 with ⟨s3, hm3⟩ | ⟨u2, s3, hm3, hf5⟩
      · exact Or.inl (_is_valid_token_error now p s2 e (by rw [hm3]))
      · exact (pure_no_error p s3 e hf5).elim

theorem storeGet_ok_state (token_id : String) (s : St) (r : Record) (s1 : St)
    (h : storeGet token_id s = (Except.ok r, s1)) :
    s1 = s ∧ lookupStore s.store token_id = some r := by
  rw [storeGet] at h
  cases hl : lookupStore s.store token_id with
  | some r0 =>
    rw [hl] at h
    injection h with h1 h2
    injection h1 with h1
    exact ⟨h2.symm, by rw [h1]⟩
  | none =>
    rw [hl] at h
    injection h with h1 h2
    cases h1

theorem validate_v2_token_err_class (env : Env) (st : St) (now : Int) (tid : String)
    (b : Option String) (e : Err) (hd : DriverOk env.driver) (hc : CacheOk st)
    (h : (validate_v2_token env now tid b st).1 = Except.error e) :
    e = Err.tokenNotFound ∨ e = Err.unauthorized ∨ e = Err.unsupportedTokenVersion := by
  rw [validate_v2_token, M.ite_run] at h
  by_cases hnp : env.driver.needs_persistence = true
  · rw [if_pos hnp] at h
    rcases bind_error_cases _ _ _ _ h with ⟨s1, hm⟩ | ⟨tr, s1, hm, hf⟩
    · exact Or.inl (storeGet_error _ _ _ (by rw [hm]))
    · obtain ⟨hs1, hlk⟩ := storeGet_ok_state _ _ _ _ hm
      subst hs1
      have hf2 : ((_validate_v2_token env tr >>= fun token =>
          M.liftE (_token_belongs_to token b) >>= fun _ =>
          _is_valid_token now token >>= fun _ => M.pure token) s1).1 = Except.error e := hf
      rcases bind_error_cases _ _ _ _ hf2 with ⟨s2, hm2⟩ | ⟨tok, s2, hm2, hf3⟩
      · have h1 : ((_validate_v2_token env tr) s1).1 = Except.error e := by rw [hm2]
        rw [_validate_v2_token] at h1
        obtain ⟨s3, h3⟩ := memoized_error_cases _ _ _ _ _ h1
        rcases hd.v2_err tr e (liftE_error _ _ _ h3) with h4 | h4
        · exact Or.inl h4
        · exact Or.inr (Or.inl h4)
      · have hshape : LegacyShaped tok := by
          have h1 : _validate_v2_token env tr s1 = (Except.ok tok, s2) := hm2
          rw [_validate_v2_token] at h1
          rcases memoized_ok_cases _ _ _ _ _ _ h1 with hhit | ⟨s4, s5, hcomp⟩
          · exact hc.v2t_shape _ tok hhit
          · exact hd.v2_shape tr tok (liftE_ok _ _ _ _ hcomp).1
        rcases post_checks_err_class tok now b s2 e hshape hf3 with h4 | h4
        · exact Or.inl h4
        · exact Or.inr (Or.inl h4)
  · rw [if_neg hnp] at h
    rcases bind_error_cases _ _ _ _ h with ⟨s1, hm⟩ | ⟨v3tok, s1, hm, hf⟩
    · have h1 : ((validate_non_persistent_token env tid) st).1 = Except.error e := by
        rw [hm]
      rw [validate_non_persistent_token] at h1
      obtain ⟨s2, h2⟩ := memoized_error_cases _ _ _ _ _ h1
      rcases hd.np_err tid e (liftE_error _ _ _ h2) with h3 | h3
      · exact Or.inl h3
      · exact Or.inr (Or.inl h3)
    · have hshape3 : v3tok.token.isSome = true := by
        have h1 : validate_non_persistent_token env tid st = (Except.ok v3tok, s1) := hm
        rw [validate_non_persistent_token] at h1
        rcases memoized_ok_cases _ _ _ _ _ _ h1 with hhit | ⟨s4, s5, hcomp⟩
        · exact hc.np_shape _ v3tok hhit
        · exact hd.np_shape tid v3tok (liftE_ok _ _ _ _ hcomp).1
      have hf2 : ((M.liftE (v3_to_v2_token v3tok tid) >>= fun token =>
          M.liftE (_token_belongs_to token b) >>= fun _ =>
          _is_valid_token now token >>= fun _ => M.pure token) s1).1 = Except.error e := hf
      rcases bind_error_cases _ _ _ _ hf2 with ⟨s2, hm2⟩ | ⟨tok, s2, hm2, hf3⟩
      · exact Or.inr (Or.inl (v3_to_v2_token_error v3tok tid e hshape3
          (liftE_error _ _ _ (by rw [hm2]))))
      · have hshape : LegacyShaped tok :=
          v3_to_v2_token_shape v3tok tid tok (liftE_ok _ _ _ _ hm2).1
        rcases post_checks_err_class tok now b s2 e hshape hf3 with h4 | h4
        · exact Or.inl h4
        · exact Or.inr (Or.inl h4)

theorem validate_v3_token_err_class (env : Env) (st : St) (now : Int) (tid : String)
    (e : Err) (hd : DriverOk env.driver)
    (h : (validate_v3_token env now tid st).1 = Except.error e) :
    e = Err.tokenNotFound := by
  rw [validate_v3_token] at h
  by_cases htid : tid = ""
  · rw [if_pos htid] at h
    exact throw_error _ _ _ h
  · rw [if_neg htid] at h
    rcases catchUnauthorized_error_cases _ _ _ _ h with ⟨s1, hin, hne⟩ | ⟨s1, hh⟩
    · have hin1 : ((if (!env.driver.needs_persistence) = true then
          validate_non_persistent_token env tid >>= fun token_ref =>
            _is_valid_token now token_ref >>= fun _ => M.pure token_ref
        else storeGet (generate_unique_id tid) >>= fun r =>
          _validate_v3_token env r >>= fun token_ref =>
            _is_valid_token now token_ref >>= fun _ => M.pure token_ref) st).1 =
          Except.error e := congrArg Prod.fst hin
      rw [M.ite_run] at hin1
      by_cases hb : (!env.driver.needs_persistence) = true
      · rw [if_pos hb] at hin1
        rcases bind_error_cases _ _ _ _ hin1 with ⟨s2, hm2⟩ | ⟨tok, s2, hm2, hf⟩
        · have h1 : ((validate_non_persistent_token env tid) st).1 = Except.error e := by
            rw [hm2]
          rw [validate_non_persistent_token] at h1
          obtain ⟨s3, h3⟩ := memoized_error_cases _ _ _ _ _ h1
          rcases hd.np_err tid e (liftE_error _ _ _ h3) with h4 | h4
          · exact h4
          · exact absurd h4 hne
        · have hf2 : ((_is_valid_token now tok >>= fun _ => M.pure tok) s2).1 =
              Except.error e := hf
          rcases bind_error_cases _ _ _ _ hf2 with ⟨s3, hm3⟩ | ⟨u, s3, hm3, hf3⟩
          · exact _is_valid_token_error now tok s2 e (by rw [hm3])
          · exact (pure_no_error tok s3 e hf3).elim
      · rw [if_neg hb] at hin1
        rcases bind_error_cases _ _ _ _ hin1 with ⟨s2, hm2⟩ | ⟨r, s2, hm2, hf⟩
        · exact storeGet_error _ _ _ (by rw [hm2])
        · have hf2 : ((_validate_v3_token env r >>= fun token_ref =>
              _is_valid_token now token_ref >>= fun _ => M.pure token_ref) s2).1 =
              Except.error e := hf
          rcases bind_error_cases _ _ _ _ hf2 with ⟨s3, hm3⟩ | ⟨tok, s3, hm3, hf3⟩
          · have h1 : ((_validate_v3_token env r) s2).1 = Except.error e := by rw [hm3]
            rw [_validate_v3_token] at h1
            obtain ⟨s4, h4⟩ := memoized_error_cases _ _ _ _ _ h1
            rcases hd.v3_err r e (liftE_error _ _ _ h4) with h5 | h5
            · exact h5
            · exact absurd h5 hne
          · have hf4 : ((_is_valid_token now tok >>= fun _ => M.pure tok) s3).1 =
                Except.error e := hf3
            rcases bind_error_cases _ _ _ _ hf4 with ⟨s4, hm4⟩ | ⟨u, s4, hm4, hf5⟩
            · exact _is_valid_token_error now tok s3 e (by rw [hm4])
            · exact (pure_no_error tok s4 e hf5).elim
    · exact throw_error _ _ _ hh

theorem keeps_pure (a : α) : KeepsKeys (M.pure a) := fun _ => rfl

theorem keeps_throw (e : Err) : KeepsKeys (M.throw e : M α) := fun _ => rfl

theorem keeps_liftE (ex : Except Err α) : KeepsKeys (M.liftE ex) := by
  cases ex with
  | ok a => exact keeps_pure a
  | error e => exact keeps_throw e

theorem keeps_bind (m : M α) (f : α → M β) (hm : KeepsKeys m)
    (hf : ∀ a, KeepsKeys (f a)) : KeepsKeys (m >>= f) := by
  intro s
  rw [M.run_bind]
  rcases hms : m s with ⟨r, s1⟩
  have h1 := hm s
  rw [hms] at h1
  cases r with
  | ok a => exact (hf a s1).trans h1
  | error e => exact h1

theorem keeps_ite (c : Prop) [Decidable c] (m1 m2 : M α) (h1 : KeepsKeys m1)
    (h2 : KeepsKeys m2) : KeepsKeys (if c then m1 else m2) := by
  split
  · exact h1
  · exact h2

theorem keeps_storeGet (token_id : String) : KeepsKeys (storeGet token_id) := by
  intro s
  rw [storeGet]
  cases lookupStore s.store token_id <;> rfl

theorem keeps_check_token (q : RevQuery) : KeepsKeys (check_token q) := by
  intro s
  rw [check_token]
  split <;> rfl

theorem keeps_check_revocation (p : Payload) : KeepsKeys (check_revocation p) := by
  rw [check_revocation]
  refine keeps_bind _ _ (keeps_liftE _) (fun v => ?_)
  refine keeps_ite _ _ _ ?_ ?_
  · rw [check_revocation_v2]
    cases p.access with
    | none => exact keeps_throw _
    | some sec => exact keeps_check_token _
  · rw [check_revocation_v3]
    cases p.token with
    | none => exact keeps_throw _
    | some sec => exact keeps_check_token _

theorem keeps_is_valid (now : Int) (p : Payload) : KeepsKeys (_is_valid_token now p) := by
  rw [_is_valid_token]
  cases extract_expiry p with
  | none => exact keeps_throw _
  | some t => exact keeps_ite _ _ _ (keeps_check_revocation p) (keeps_throw _)

/-- A memoized call appends exactly its own key to the trace when the body
itself performs no memoized lookup. -/
theorem memoized_keys (fn : Fn) (arg : Arg) (compute : M Payload)
    (hc : KeepsKeys compute) (s : St) :
    (((memoized fn arg compute) s).2).memoKeys = s.memoKeys ++ [(fn, arg)] := by
  simp only [memoized]
  cases hcg : cacheGet s.cache (fn, arg) with
  | some v => rfl
  | none =>
    rcases hcs : compute { s with memoKeys := s.memoKeys ++ [(fn, arg)] } with ⟨r, s2⟩
    have h1 := hc { s with memoKeys := s.memoKeys ++ [(fn, arg)] }
    rw [hcs] at h1
    cases r with
    | ok v => exact h1
    | error e => exact h1

theorem bind_keys_left (m : M α) (f : α → M β) (hf : ∀ a, KeepsKeys (f a)) (s : St) :
    (((m >>= f) s).2).memoKeys = ((m s).2).memoKeys := by
  rw [M.run_bind]
  rcases hms : m s with ⟨r, s1⟩
  cases r with
  | ok a => exact hf a s1
  | error e => rfl

theorem catchU_keys_left (m h' : M α) (hh : KeepsKeys h') (s : St) :
    ((M.catchUnauthorized m h' s).2).memoKeys = ((m s).2).memoKeys := by
  rw [M.catchUnauthorized]
  rcases hms : m s with ⟨r, s1⟩
  cases r with
  | ok a => rfl
  | error e =>
    simp only
    split
    · exact hh s1
    · rfl

/-- `_validate_token_body` performs no memoized lookup of its own. -/
theorem keeps_validate_token_body (env : Env) (uid : String) :
    KeepsKeys (_validate_token_body env uid) := by
  rw [_validate_token_body]
  refine keeps_ite _ _ _ (keeps_throw _) ?_
  refine keeps_bind _ _ ?_ (fun r => ?_)
  · intro s
    rw [catchU_keys_left _ _ (keeps_throw _)]
    refine (?_ : KeepsKeys (_validate_token_resolve env uid)) s
    rw [_validate_token_resolve]
    refine keeps_ite _ _ _ ?_ ?_
    · exact keeps_bind _ _ (keeps_liftE _) (fun p => keeps_pure _)
    · refine keeps_bind _ _ (keeps_storeGet _) (fun rec => ?_)
      refine keeps_bind _ _ (keeps_liftE _) (fun v => ?_)
      refine keeps_ite _ _ _ ?_ (keeps_pure _)
      exact keeps_bind _ _ (keeps_liftE _) (fun p => keeps_pure _)
  · cases r with
    | inl token => exact keeps_pure _
    | inr rv => exact keeps_ite _ _ _ (keeps_liftE _) (keeps_throw _)

/-! ## Claims -/

/-- C1 (counterexample): the claim says a token that is both expired and
tenant-mismatched fails with NotFound because the expiry check runs before
the scope-binding check.  At time 10 the payload `c1payload` (expiry 0,
tenant `"tenant-A"`) validated with `belongs_to = "tenant-B"` actually
fails with `Unauthorized`: `validate_token` runs `_token_belongs_to`
*before* `_is_valid_token`. -/
theorem c1_order_counterexample :
    extract_expiry c1payload = some 0 ∧
    (validate_token c1env 10 "token-1" (some "tenant-B") emptySt).1 =
      Except.error Err.unauthorized ∧
    Except.error (α := Payload) Err.unauthorized ≠ Except.error Err.tokenNotFound := by
  refine ⟨rfl, rfl, ?_⟩
  intro h
  injection h with h
  cases h

/-- C1 (amended): in `validate_token` and `validate_v2_token` the checks
run in the order resolution → scope-binding (`belongs_to`) → expiry →
revocation, short-circuiting on first failure; consequently a token that is
both expired and tenant-mismatched fails with `Unauthorized` (the
authorization failure from the scope-binding step), not `TokenNotFound`. -/
theorem c1_order_amended (env : Env) (st : St) (now t : Int) (token_id b : String)
    (rec : Record) (q : Payload) (sec : Sec) (n : Nested)
    (hnp : env.driver.needs_persistence = true)
    (hcache : st.cache = [])
    (huid : generate_unique_id token_id ≠ "")
    (hstore : lookupStore st.store (generate_unique_id token_id) = some rec)
    (hver : rec.token_version = V2)
    (hdrv : env.driver.validate_v2 rec = Except.ok q)
    (hacc : q.access = some sec) (hnest : sec.nested = some n)
    (hten : n.tenant ≠ some b) (hb : b ≠ "")
    (hexp : extract_expiry q = some t) (hnow : t ≤ now) :
    (validate_token env now token_id (some b) st).1 = Except.error Err.unauthorized ∧
    (validate_v2_token env now token_id (some b) st).1 = Except.error Err.unauthorized := by
  have hbt : _token_belongs_to q (some b) = Except.error Err.unauthorized := by
    simp only [_token_belongs_to, if_neg hb, hacc, hnest, if_neg hten]
  constructor
  · rw [validate_token]
    have hbody := _validate_token_body_v2_run env (generate_unique_id token_id) rec q
      { st with memoKeys := st.memoKeys ++ [(Fn.vt, Arg.str (generate_unique_id token_id))] }
      huid hnp hstore hver hdrv
    rw [M.run_bind_ok _ _ _ _ _
      (_validate_token_run_miss env _ q st _ (by rw [hcache]; rfl) hbody)]
    exact congrArg Prod.fst (post_checks_mismatch q now (some b) _ hbt)
  · rw [validate_v2_token, M.ite_run, if_pos hnp,
      M.run_bind_ok _ _ _ _ _ (storeGet_found _ rec st hstore)]
    beta_reduce
    have hv2t : _validate_v2_token env rec st =
        (Except.ok q, { st with
          memoKeys := st.memoKeys ++ [(Fn.v2t, Arg.ref rec)],
          cache := ((Fn.v2t, Arg.ref rec), q) :: st.cache }) := by
      rw [_validate_v2_token]
      exact memoized_miss_run _ _ _ _ _ _ (by rw [hcache]; rfl)
        (M.run_liftE_ok _ _ hdrv _)
    rw [M.run_bind_ok _ _ _ _ _ hv2t]
    exact congrArg Prod.fst (post_checks_mismatch q now (some b) _ hbt)

/-- Witness for the amended C1 at the concrete persisted record `c1record`
(expired at 0, tenant `"tenant-A"`), validated at time 10 against
`belongs_to = "tenant-B"`. -/
theorem c1_order_amended_witness :
    (validate_token c1penv 10 "token-1" (some "tenant-B") c1st).1 =
      Except.error Err.unauthorized ∧
    (validate_v2_token c1penv 10 "token-1" (some "tenant-B") c1st).1 =
      Except.error Err.unauthorized :=
  c1_order_amended c1penv c1st 10 0 "token-1" "tenant-B" c1record c1payload
    { expires_at := Field.missing, expires := Field.missing,
      nested := some { expires := Field.time 0, tenant := some "tenant-A" } }
    { expires := Field.time 0, tenant := some "tenant-A" }
    rfl rfl (by decide) rfl rfl rfl rfl rfl (by decide) (by decide) rfl (by omega)

/-- C2 (counterexample): the claim says every failure raised by a
`validate*` entry point is NotFound or AuthorizationFailure.  But a
persisted record whose version tag is unsupported makes `validate_token`
raise `UnsupportedTokenVersionException` to the caller: the version check
sits inside a `try` that only converts `Unauthorized`, and nothing else
wraps it. -/
theorem c2_boundary_counterexample :
    (validate_token c2env 0 "token-2" none c2st).1 =
      Except.error Err.unsupportedTokenVersion ∧
    Err.unsupportedTokenVersion ≠ Err.tokenNotFound ∧
    Err.unsupportedTokenVersion ≠ Err.unauthorized :=
  ⟨rfl, by decide, by decide⟩

/-- C2 (amended): under the documented driver and cache contracts, every
failure raised by `validate_token` (documented usage, no `belongs_to`) or
`validate_v2_token` is `TokenNotFound`, `Unauthorized`, or the
unsupported-version exception — the latter crossing the boundary unwrapped
when the resolved record's version is neither legacy nor current — while
`validate_v3_token` raises only `TokenNotFound`. -/
theorem c2_boundary_errors_amended (env : Env) (st : St) (now : Int) (tid : String)
    (b : Option String) (e : Err) (hd : DriverOk env.driver) (hc : CacheOk st) :
    ((validate_token env now tid none st).1 = Except.error e →
      e = Err.tokenNotFound ∨ e = Err.unauthorized ∨
        e = Err.unsupportedTokenVersion) ∧
    ((validate_v2_token env now tid b st).1 = Except.error e →
      e = Err.tokenNotFound ∨ e = Err.unauthorized ∨
        e = Err.unsupportedTokenVersion) ∧
    ((validate_v3_token env now tid st).1 = Except.error e →
      e = Err.tokenNotFound) :=
  ⟨fun h => validate_token_err_class env st now tid e hd h,
   fun h => validate_v2_token_err_class env st now tid b e hd hc h,
   fun h => validate_v3_token_err_class env st now tid e hd h⟩

/-- Witness for the amended C2 at the concrete environment `c2env` and
state `c2st` (which satisfy the driver and cache contracts), at the error
actually raised there. -/
theorem c2_boundary_errors_amended_witness :
    ((validate_token c2env 0 "token-2" none c2st).1 =
        Except.error Err.unsupportedTokenVersion →
      Err.unsupportedTokenVersion = Err.tokenNotFound ∨
        Err.unsupportedTokenVersion = Err.unauthorized ∨
        Err.unsupportedTokenVersion = Err.unsupportedTokenVersion) ∧
    ((validate_v2_token c2env 0 "token-2" none c2st).1 =
        Except.error Err.unsupportedTokenVersion →
      Err.unsupportedTokenVersion = Err.tokenNotFound ∨
        Err.unsupportedTokenVersion = Err.unauthorized ∨
        Err.unsupportedTokenVersion = Err.unsupportedTokenVersion) ∧
    ((validate_v3_token c2env 0 "token-2" c2st).1 =
        Except.error Err.unsupportedTokenVersion →
      Err.unsupportedTokenVersion = Err.tokenNotFound) :=
  c2_boundary_errors_amended c2env c2st 0 "token-2" none Err.unsupportedTokenVersion
    { np_err := fun id e h => by injection h with h; exact Or.inl h.symm,
      np_shape := fun id p h => Except.noConfusion h,
      v2_err := fun r e h => by injection h with h; exact Or.inl h.symm,
      v2_shape := fun r p h => Except.noConfusion h,
      v3_err := fun r e h => by injection h with h; exact Or.inl h.symm }
    { v2t_shape := fun a p h => Option.noConfusion h,
      np_shape := fun a p h => Option.noConfusion h }

/-- C3: In a validation call that reaches the expiry step (here with the
resolution step served entirely from the cache — a cache hit never bypasses
the revocation check), the revocation registry is consulted exactly once if
the token has not expired (`now < t`) and not at all otherwise. -/
theorem c3_revocation_iff_not_expired (env : Env) (st : St) (now t : Int)
    (token_id : String) (b : Option String) (p : Payload)
    (hcache : cacheGet st.cache (Fn.vt, Arg.str (generate_unique_id token_id)) = some p)
    (hbt : _token_belongs_to p b = Except.ok ())
    (hexp : extract_expiry p = some t) :
    ((validate_token env now token_id b st).2).revCount =
      st.revCount + (if now < t then 1 else 0) := by
  rw [validate_token,
    M.run_bind_ok _ _ _ _ _ (_validate_token_run_hit env _ st p hcache)]
  beta_reduce
  rw [M.run_bind_ok _ _ _ _ _ (M.run_liftE_ok _ _ hbt _)]
  by_cases hlt : now < t
  · rw [if_pos hlt]
    have hrc := check_revocation_revCount p
      { st with memoKeys := st.memoKeys ++ [(Fn.vt, Arg.str (generate_unique_id token_id))] }
      (extract_expiry_section p t hexp)
    calc ((((_is_valid_token now p) >>= fun _ => M.pure p))
            { st with memoKeys :=
                st.memoKeys ++ [(Fn.vt, Arg.str (generate_unique_id token_id))] }).2.revCount
        = ((_is_valid_token now p)
            { st with memoKeys :=
                st.memoKeys ++ [(Fn.vt, Arg.str (generate_unique_id token_id))] }).2.revCount :=
          by rw [bind_pure_snd]
      _ = st.revCount + 1 := by rw [_is_valid_token_run_live now p _ t hexp hlt]; exact hrc
  · rw [if_neg hlt]
    calc ((((_is_valid_token now p) >>= fun _ => M.pure p))
            { st with memoKeys :=
                st.memoKeys ++ [(Fn.vt, Arg.str (generate_unique_id token_id))] }).2.revCount
        = ((_is_valid_token now p)
            { st with memoKeys :=
                st.memoKeys ++ [(Fn.vt, Arg.str (generate_unique_id token_id))] }).2.revCount :=
          by rw [bind_pure_snd]
      _ = st.revCount + 0 := by
          rw [_is_valid_token_run_expired now p _ t hexp (by omega)]
          rfl

/-- Witness for C3 at the cache-hit state `c3st` (expiry 5): validating at
time 3 consults the registry once, at time 7 not at all. -/
theorem c3_revocation_iff_not_expired_witness :
    ((validate_token c1env 3 "token-1" none c3st).2).revCount = 1 ∧
    ((validate_token c1env 7 "token-1" none c3st).2).revCount = 0 :=
  ⟨(c3_revocation_iff_not_expired c1env c3st 3 5 "token-1" none c3payload
      rfl rfl rfl).trans (by decide),
   (c3_revocation_iff_not_expired c1env c3st 7 5 "token-1" none c3payload
      rfl rfl rfl).trans (by decide)⟩

/-- C4: Expiry boundary — for every token whose payload yields expiry `t`,
running the structural/expiry check at a current time `now ≥ t` fails with
`TokenNotFound` (exactly as for an absent token) leaving the state
untouched, while at any `now < t` the check passes the expiry step and is
precisely the revocation check. -/
theorem c4_expiry_boundary (now t : Int) (p : Payload) (st : St)
    (hexp : extract_expiry p = some t) :
    (t ≤ now → _is_valid_token now p st = (Except.error Err.tokenNotFound, st)) ∧
    (now < t → _is_valid_token now p st = check_revocation p st) := by
  constructor
  · intro hle
    rw [_is_valid_token, hexp]
    simp only
    rw [M.ite_run, if_neg (by omega)]
    rfl
  · intro hlt
    rw [_is_valid_token, hexp]
    simp only
    rw [M.ite_run, if_pos hlt]

/-- Witness for C4 at the concrete payload `c4payload` (expiry 3): checking
at time 5 is `TokenNotFound`, checking at time 2 is the revocation check. -/
theorem c4_expiry_boundary_witness :
    _is_valid_token 5 c4payload emptySt = (Except.error Err.tokenNotFound, emptySt) ∧
    _is_valid_token 2 c4payload emptySt = check_revocation c4payload emptySt :=
  ⟨(c4_expiry_boundary 5 3 c4payload emptySt (by decide)).1 (by omega),
   (c4_expiry_boundary 2 3 c4payload emptySt (by decide)).2 (by omega)⟩

/-- C5: Duplicate-create race — whenever the store's create operation fails,
`_create_token` re-fetches by the same id: if the fetch finds a record the
call returns without raising; the original create failure is re-raised
exactly when the fetch reports `TokenNotFound`; any other fetch failure is
raised as itself. -/
theorem c5_duplicate_create_race (create_op : M Unit) (get_op : M Record)
    (s s1 : St) (e : Err) (hc : create_op s = (Except.error e, s1)) :
    (∀ r s2, get_op s1 = (Except.ok r, s2) →
      _create_token create_op get_op s = (Except.ok (), s2)) ∧
    (∀ s2, get_op s1 = (Except.error Err.tokenNotFound, s2) →
      _create_token create_op get_op s = (Except.error e, s2)) ∧
    (∀ e2 s2, get_op s1 = (Except.error e2, s2) → e2 ≠ Err.tokenNotFound →
      _create_token create_op get_op s = (Except.error e2, s2)) := by
  refine ⟨?_, ?_, ?_⟩
  · intro r s2 hg
    rw [_create_token, hc]
    simp only
    rw [hg]
  · intro s2 hg
    rw [_create_token, hc]
    simp only
    rw [hg]
    simp
  · intro e2 s2 hg hne
    rw [_create_token, hc]
    simp only
    rw [hg]
    simp [hne]

/-- Witness for C5: a create op failing with `Conflict` against the three
possible fetch outcomes. -/
theorem c5_duplicate_create_race_witness :
    _create_token (M.throw Err.conflict) (M.pure trivialRecord) emptySt =
      (Except.ok (), emptySt) ∧
    _create_token (M.throw Err.conflict) (M.throw Err.tokenNotFound) emptySt =
      (Except.error Err.conflict, emptySt) ∧
    _create_token (M.throw Err.conflict) (M.throw Err.keyError) emptySt =
      (Except.error Err.keyError, emptySt) :=
  ⟨(c5_duplicate_create_race (M.throw Err.conflict) (M.pure trivialRecord)
      emptySt emptySt Err.conflict rfl).1 trivialRecord emptySt rfl,
   (c5_duplicate_create_race (M.throw Err.conflict) (M.throw Err.tokenNotFound)
      emptySt emptySt Err.conflict rfl).2.1 emptySt rfl,
   (c5_duplicate_create_race (M.throw Err.conflict) (M.throw Err.keyError)
      emptySt emptySt Err.conflict rfl).2.2 Err.keyError emptySt rfl (by decide)⟩

/-- C6 (counterexample): the claim says every memoized validation entry
point is keyed by the normalized unique form of the token id.  But on the
persistence path of `validate_v2_token`, the memoized `_validate_v2_token`
is called with — and therefore keyed by — the full persisted record
(`token_ref`), not the normalized id: the single memo key logged by this
concrete run is `Arg.ref c1record`, which is not `Arg.str` of the
normalized id. -/
theorem c6_memo_key_counterexample :
    ((validate_v2_token c1penv 0 "token-1" none c1st).2).memoKeys =
      [(Fn.v2t, Arg.ref c1record)] ∧
    (Fn.v2t, Arg.ref c1record) ≠ (Fn.v2t, Arg.str (generate_unique_id "token-1")) := by
  refine ⟨rfl, ?_⟩
  intro h
  injection h with h1 h2
  cases h2

/-- C6 (amended): only `validate_token` memoizes by the normalized unique
id — its run logs exactly the key `(vt, generate_unique_id id)`.  On their
persistence paths `validate_v2_token` and `validate_v3_token` memoize
`_validate_v2_token` / `_validate_v3_token` by the full persisted record,
and on the non-persistent path `validate_v3_token` memoizes
`validate_non_persistent_token` by the raw token id as presented (not
normalized). -/
theorem c6_memo_key_amended (env : Env) (st : St) (now : Int) (token_id : String)
    (b : Option String) (rec : Record) :
    (((validate_token env now token_id b st).2).memoKeys =
      st.memoKeys ++ [(Fn.vt, Arg.str (generate_unique_id token_id))]) ∧
    (env.driver.needs_persistence = true →
      lookupStore st.store (generate_unique_id token_id) = some rec →
      ((validate_v2_token env now token_id b st).2).memoKeys =
        st.memoKeys ++ [(Fn.v2t, Arg.ref rec)]) ∧
    (env.driver.needs_persistence = false → token_id ≠ "" →
      ((validate_v3_token env now token_id st).2).memoKeys =
        st.memoKeys ++ [(Fn.np, Arg.str token_id)]) ∧
    (env.driver.needs_persistence = true →
      lookupStore st.store (generate_unique_id token_id) = some rec → token_id ≠ "" →
      ((validate_v3_token env now token_id st).2).memoKeys =
        st.memoKeys ++ [(Fn.v3t, Arg.ref rec)]) := by
  refine ⟨?_, fun hnp hstore => ?_, fun hnp htid => ?_, fun hnp hstore htid => ?_⟩
  · rw [validate_token]
    rw [bind_keys_left _ _ (fun p => keeps_bind _ _ (keeps_liftE _)
      (fun u => keeps_bind _ _ (keeps_is_valid now p) (fun u => keeps_pure _)))]
    rw [_validate_token]
    exact memoized_keys _ _ _ (keeps_validate_token_body env _) st
  · rw [validate_v2_token, M.ite_run, if_pos hnp,
      M.run_bind_ok _ _ _ _ _ (storeGet_found _ rec st hstore)]
    beta_reduce
    rw [bind_keys_left _ _ (fun p => keeps_bind _ _ (keeps_liftE _)
      (fun u => keeps_bind _ _ (keeps_is_valid now p) (fun u => keeps_pure _)))]
    rw [_validate_v2_token]
    exact memoized_keys _ _ _ (keeps_liftE _) st
  · rw [validate_v3_token, if_neg htid]
    rw [catchU_keys_left _ _ (keeps_throw _)]
    rw [M.ite_run, hnp]
    simp only [Bool.not_false, eq_self_iff_true, if_true]
    rw [bind_keys_left _ _ (fun p => keeps_bind _ _ (keeps_is_valid now p)
      (fun u => keeps_pure _))]
    rw [validate_non_persistent_token]
    exact memoized_keys _ _ _ (keeps_liftE _) st
  · rw [validate_v3_token, if_neg htid]
    rw [catchU_keys_left _ _ (keeps_throw _)]
    rw [M.ite_run, hnp]
    simp only [Bool.not_true, Bool.false_eq_true, if_false]
    rw [M.run_bind_ok _ _ _ _ _ (storeGet_found _ rec st hstore)]
    beta_reduce
    rw [bind_keys_left _ _ (fun p => keeps_bind _ _ (keeps_is_valid now p)
      (fun u => keeps_pure _))]
    rw [_validate_v3_token]
    exact memoized_keys _ _ _ (keeps_liftE _) st

/-- Witness for the amended C6 at the concrete fixtures: the four entry
point paths log exactly the stated keys. -/
theorem c6_memo_key_amended_witness :
    ((validate_token c1penv 0 "token-1" none c1st).2).memoKeys =
      c1st.memoKeys ++ [(Fn.vt, Arg.str (generate_unique_id "token-1"))] ∧
    ((validate_v2_token c1penv 0 "token-1" none c1st).2).memoKeys =
      c1st.memoKeys ++ [(Fn.v2t, Arg.ref c1record)] ∧
    ((validate_v3_token c8env 0 "token-1" emptySt).2).memoKeys =
      emptySt.memoKeys ++ [(Fn.np, Arg.str "token-1")] ∧
    ((validate_v3_token c1penv 0 "token-1" c1st).2).memoKeys =
      c1st.memoKeys ++ [(Fn.v3t, Arg.ref c1record)] :=
  ⟨(c6_memo_key_amended c1penv c1st 0 "token-1" none c1record).1,
   (c6_memo_key_amended c1penv c1st 0 "token-1" none c1record).2.1 rfl rfl,
   (c6_memo_key_amended c8env emptySt 0 "token-1" none c1record).2.2.1 (by rfl) (by decide),
   (c6_memo_key_amended c1penv c1st 0 "token-1" none c1record).2.2.2 rfl rfl (by decide)⟩

/-- C7: Event-driven bulk invalidation — every registered callback deletes
its matching persisted tokens exactly when `revoke_by_id` is enabled (the
store is untouched otherwise), and wipes the entire validation cache region
exactly when `cache_on_issue` is enabled, independently of `revoke_by_id`;
the revocation registry and all other state are never touched. -/
theorem c7_bulk_invalidation_frame (env : Env) (c : CbCall) (st : St) :
    runCallback env c st =
      (Except.ok (),
       { store := if env.cfg.revoke_by_id then applyDels st.store (cbDeletions env c)
                  else st.store,
         cache := if env.cfg.cache_on_issue then [] else st.cache,
         revoked := st.revoked, revCount := st.revCount, memoKeys := st.memoKeys }) := by
  rcases env with ⟨⟨coi, rb⟩, drv, tr, pu⟩
  cases c <;> cases coi <;> cases rb <;> rfl

/-- C8: `revoke_token` resolves and validates the token first: whenever
that validation fails with `TokenNotFound` (absent, expired, revoked or
malformed token), `revoke_token` raises the same `TokenNotFound` and
records no revocation-registry entry and deletes no persisted record. -/
theorem c8_revoke_invalid_token (env : Env) (now : Int) (token_id : String)
    (revoke_chain : Bool) (st s1 : St)
    (hval : validate_token env now token_id none st =
      (Except.error Err.tokenNotFound, s1)) :
    revoke_token env now token_id revoke_chain st =
      (Except.error Err.tokenNotFound, s1) ∧
    s1.store = st.store ∧ s1.revoked = st.revoked := by
  refine ⟨?_, ?_⟩
  · rw [revoke_token]
    exact M.run_bind_err _ _ _ _ _ hval
  · have h := preserves_validate_token env now token_id none st
    rw [hval] at h
    exact h

/-- Witness for C8 on the empty store: validating (hence revoking)
`"token-1"` is `TokenNotFound` and the state's store and registry are
untouched. -/
theorem c8_revoke_invalid_token_witness :
    revoke_token c8env 0 "token-1" false emptySt =
      (Except.error Err.tokenNotFound,
       { store := [], cache := [], revoked := [], revCount := 0,
         memoKeys := [(Fn.vt, Arg.str "token-1")] }) ∧
    ({ store := [], cache := [], revoked := [], revCount := 0,
       memoKeys := [(Fn.vt, Arg.str "token-1")] } : St).store = emptySt.store ∧
    ({ store := [], cache := [], revoked := [], revCount := 0,
       memoKeys := [(Fn.vt, Arg.str "token-1")] } : St).revoked = emptySt.revoked :=
  c8_revoke_invalid_token c8env 0 "token-1" false emptySt _ rfl

/-- C9: For every current-version issuance with `cache_on_issue` enabled
(shown here for a non-persisting driver), issuance succeeds and returns the
driver's `(id, payload)`; the legacy view is attempted — when its synthesis
fails with an authorization failure the failure is swallowed and only the
legacy cache entry for the id stays cold, and when it succeeds the legacy
view is cached for the id. -/
theorem c9_issue_v3_legacy_cache (env : Env) (inp : IssueIn) (st : St) (tid : String)
    (p : Payload) (sec : Sec)
    (hcoi : env.cfg.cache_on_issue = true)
    (hnp : env.driver.needs_persistence = false)
    (hiss : env.driver.issue_v3 inp.request = Except.ok (tid, p))
    (hsec : p.token = some sec) :
    (issue_v3_token env inp st).1 = Except.ok (tid, p) ∧
    (v3_to_v2_token p tid = Except.error Err.unauthorized →
      cacheGet ((issue_v3_token env inp st).2).cache (Fn.v2t, Arg.str tid) =
        cacheGet st.cache (Fn.v2t, Arg.str tid)) ∧
    (∀ v2d, v3_to_v2_token p tid = Except.ok v2d →
      cacheGet ((issue_v3_token env inp st).2).cache (Fn.v2t, Arg.str tid) = some v2d) := by
  cases hconv : v3_to_v2_token p tid with
  | error e =>
    have he : e = Err.unauthorized :=
      v3_to_v2_token_error p tid e (by rw [hsec]; rfl) hconv
    subst he
    have hrun : issue_v3_token env inp st =
        (Except.ok (tid, p),
         { st with cache := ((Fn.np, Arg.str tid), p) :: ((Fn.vt, Arg.str tid), p) ::
             ((Fn.v3t, Arg.str tid), p) :: st.cache }) := by
      rw [issue_v3_token, M.run_bind_ok _ _ _ _ _ (M.run_liftE_ok _ _ hiss st)]
      dsimp only
      rw [hsec]
      dsimp only
      rw [M.ite_run, hnp]
      simp only [Bool.false_eq_true, if_false]
      rw [M.run_bind_ok _ _ _ _ _ (rfl :
        (pure PUnit.unit : M PUnit) st = (Except.ok PUnit.unit, st))]
      beta_reduce
      rw [M.ite_run, hcoi, if_pos rfl]
      rw [M.run_bind_ok _ _ _ _ _ (rfl : cacheSet Fn.v3t (Arg.str tid) p st =
        (Except.ok (), { st with cache := ((Fn.v3t, Arg.str tid), p) :: st.cache }))]
      beta_reduce
      rw [M.run_bind_ok _ _ _ _ _ (rfl : cacheSet Fn.vt (Arg.str tid) p
          { st with cache := ((Fn.v3t, Arg.str tid), p) :: st.cache } =
        (Except.ok (), { st with cache := ((Fn.vt, Arg.str tid), p) ::
          ((Fn.v3t, Arg.str tid), p) :: st.cache }))]
      beta_reduce
      rw [M.run_bind_ok _ _ _ _ _ (rfl : cacheSet Fn.np (Arg.str tid) p
          { st with cache := ((Fn.vt, Arg.str tid), p) ::
            ((Fn.v3t, Arg.str tid), p) :: st.cache } =
        (Except.ok (), { st with cache := ((Fn.np, Arg.str tid), p) ::
          ((Fn.vt, Arg.str tid), p) :: ((Fn.v3t, Arg.str tid), p) :: st.cache }))]
      beta_reduce
      rw [hconv]
      dsimp only
      rw [M.ite_run, if_pos (show Err.unauthorized = Err.unauthorized from rfl)]
      rfl
    rw [hrun]
    refine ⟨rfl, fun _ => ?_, fun v2d hv => ?_⟩
    · show cacheGet (((Fn.np, Arg.str tid), p) :: ((Fn.vt, Arg.str tid), p) ::
        ((Fn.v3t, Arg.str tid), p) :: st.cache) (Fn.v2t, Arg.str tid) =
        cacheGet st.cache (Fn.v2t, Arg.str tid)
      rw [cacheGet, if_neg (by simp), cacheGet, if_neg (by simp), cacheGet,
        if_neg (by simp)]
    · cases hv
  | ok v2d0 =>
    have hrun : issue_v3_token env inp st =
        (Except.ok (tid, p),
         { st with cache := ((Fn.v2t, Arg.str tid), v2d0) :: ((Fn.np, Arg.str tid), p) ::
             ((Fn.vt, Arg.str tid), p) :: ((Fn.v3t, Arg.str tid), p) :: st.cache }) := by
      rw [issue_v3_token, M.run_bind_ok _ _ _ _ _ (M.run_liftE_ok _ _ hiss st)]
      dsimp only
      rw [hsec]
      dsimp only
      rw [M.ite_run, hnp]
      simp only [Bool.false_eq_true, if_false]
      rw [M.run_bind_ok _ _ _ _ _ (rfl :
        (pure PUnit.unit : M PUnit) st = (Except.ok PUnit.unit, st))]
      beta_reduce
      rw [M.ite_run, hcoi, if_pos rfl]
      rw [M.run_bind_ok _ _ _ _ _ (rfl : cacheSet Fn.v3t (Arg.str tid) p st =
        (Except.ok (), { st with cache := ((Fn.v3t, Arg.str tid), p) :: st.cache }))]
      beta_reduce
      rw [M.run_bind_ok _ _ _ _ _ (rfl : cacheSet Fn.vt (Arg.str tid) p
          { st with cache := ((Fn.v3t, Arg.str tid), p) :: st.cache } =
        (Except.ok (), { st with cache := ((Fn.vt, Arg.str tid), p) ::
          ((Fn.v3t, Arg.str tid), p) :: st.cache }))]
      beta_reduce
      rw [M.run_bind_ok _ _ _ _ _ (rfl : cacheSet Fn.np (Arg.str tid) p
          { st with cache := ((Fn.vt, Arg.str tid), p) ::
            ((Fn.v3t, Arg.str tid), p) :: st.cache } =
        (Except.ok (), { st with cache := ((Fn.np, Arg.str tid), p) ::
          ((Fn.vt, Arg.str tid), p) :: ((Fn.v3t, Arg.str tid), p) :: st.cache }))]
      beta_reduce
      rw [hconv]
      dsimp only
      rfl
    rw [hrun]
    refine ⟨rfl, fun hv => ?_, fun v2d hv => ?_⟩
    · cases hv
    · injection hv with hv
      rw [← hv]
      show cacheGet (((Fn.v2t, Arg.str tid), v2d0) :: ((Fn.np, Arg.str tid), p) ::
        ((Fn.vt, Arg.str tid), p) :: ((Fn.v3t, Arg.str tid), p) :: st.cache)
        (Fn.v2t, Arg.str tid) = some v2d0
      rw [cacheGet, if_pos rfl]

/-- Witness for C9: issuing the trust-delegated `c9payload` with
`cache_on_issue` on succeeds, and the legacy (`_validate_v2_token`) cache
entry for the minted id stays cold. -/
theorem c9_issue_v3_legacy_cache_witness :
    (issue_v3_token c9env c9inp emptySt).1 = Except.ok ("token-9", c9payload) ∧
    cacheGet ((issue_v3_token c9env c9inp emptySt).2).cache
      (Fn.v2t, Arg.str "token-9") = none :=
  ⟨(c9_issue_v3_legacy_cache c9env c9inp emptySt "token-9" c9payload
      { expires_at := Field.time 100, expires := Field.missing, nested := none }
      rfl rfl rfl rfl).1,
   ((c9_issue_v3_legacy_cache c9env c9inp emptySt "token-9" c9payload
      { expires_at := Field.time 100, expires := Field.missing, nested := none }
      rfl rfl rfl rfl).2.1 rfl).trans rfl⟩

/-- C10: For every 16-byte input, decoding (after restoring the `==`
padding) the 22-character padding-stripped URL-safe base64 string produced
by the `random_urlsafe_str` scheme recovers exactly the input bytes. -/
theorem c10_random_urlsafe_roundtrip (b : List Nat) (hb : ∀ x ∈ b, x < 256)
    (hlen : b.length = 16) :
    random_urlsafe_str_to_bytes (random_urlsafe_str_of b) = some b ∧
    (random_urlsafe_str_of b).length = 22 := by
  have h3 : b.length % 3 = 1 := by rw [hlen]
  constructor
  · rw [random_urlsafe_str_to_bytes, strip_pad_restore b h3]
    exact decodeChunks_encodeChunks b hb h3
  · rw [random_urlsafe_str_of]
    rw [List.length_take, encodeChunks_length b h3, hlen]
    rfl

/-- Witness for C10 at the bytes `0, 1, ..., 15`. -/
theorem c10_random_urlsafe_roundtrip_witness :
    random_urlsafe_str_to_bytes (random_urlsafe_str_of (List.range 16)) =
      some (List.range 16) ∧
    (random_urlsafe_str_of (List.range 16)).length = 22 :=
  c10_random_urlsafe_roundtrip (List.range 16) (by decide) (by decide)

end Keystone
